import Mathlib

/-
Verification development for the PFE report generator (`app.py`).

The repository is a single-file Flask application.  We give a shallow
embedding of its data model and operations:

* Python/JSON values are modelled by `JsonVal`; dictionaries are association
  lists with Python's first-match lookup and insertion-order update semantics.
* The external LLM provider (`groq` client) is a boundary system: one call
  `client.chat.completions.create(...)` is modelled by an oracle
  `api : String → String → Nat → APIResult` giving, for a (system prompt,
  user prompt, attempt index), either a raised exception or returned content.
  `json.loads` is likewise modelled by an oracle `String → Option JsonVal`
  (`none` = `json.JSONDecodeError`).
* Fallible Python code (subscript `KeyError`, `TypeError`, ...) is embedded
  in `Except PyErr`.
* `time.sleep` and attempt counting are recorded in a `GenTrace` so that the
  retry/backoff contract is statable.
* Character classes (`\s`, `\d`, `str.strip`) are modelled over their ASCII
  portion; all inputs considered in the theorems are within that fragment.
-/

/-- A parsed JSON / Python value (numbers restricted to integers; the
    application never manipulates fractional JSON numbers). -/
inductive JsonVal where
  | str (s : String)
  | num (n : Int)
  | bool (b : Bool)
  | null
  | arr (xs : List JsonVal)
  | obj (fields : List (String × JsonVal))

/-- A Python dict with string keys, as produced by `json.loads` for the
    request body and the analyzer result. -/
abbrev JsonObj := List (String × JsonVal)

/-- Python truthiness (`bool(v)`) of a JSON value. -/
def pyTruthy : JsonVal → Bool
  | .str s => !s.isEmpty
  | .num n => n != 0
  | .bool b => b
  | .null => false
  | .arr xs => !xs.isEmpty
  | .obj fields => !fields.isEmpty

/-- Truthiness of `d.get(k)` (absent key gives `None`, which is falsy). -/
def pyTruthyOpt : Option JsonVal → Bool
  | none => false
  | some v => pyTruthy v

/-- First-match association-list lookup (`k in d` / `d[k]` / `d.get(k)`). -/
def pyLookup {κ ν : Type} [DecidableEq κ] (k : κ) : List (κ × ν) → Option ν
  | [] => none
  | (k', v) :: rest => if k' = k then some v else pyLookup k rest

/-- Python dict assignment `d[k] = v`: overwrites in place if the key is
    present, otherwise appends (insertion order preserved). -/
def pyDictSet {κ ν : Type} [DecidableEq κ] (d : List (κ × ν)) (k : κ) (v : ν) :
    List (κ × ν) :=
  match pyLookup k d with
  | some _ => d.map (fun p => if p.1 = k then (k, v) else p)
  | none => d ++ [(k, v)]

mutual

/-- Python `repr` of a parsed JSON value (used by `str` on containers). -/
def pyRepr : JsonVal → String
  | .str s => "'" ++ s ++ "'"
  | .num n => toString n
  | .bool b => if b then "True" else "False"
  | .null => "None"
  | .arr xs => "[" ++ pyReprArr xs ++ "]"
  | .obj fields => "\x7b" ++ pyReprObj fields ++ "\x7d"

/-- Comma-separated `repr`s of list elements. -/
def pyReprArr : List JsonVal → String
  | [] => ""
  | [x] => pyRepr x
  | x :: y :: xs => pyRepr x ++ ", " ++ pyReprArr (y :: xs)

/-- Comma-separated `repr`s of dict items. -/
def pyReprObj : List (String × JsonVal) → String
  | [] => ""
  | [(k, v)] => "'" ++ k ++ "': " ++ pyRepr v
  | (k, v) :: y :: xs => "'" ++ k ++ "': " ++ pyRepr v ++ ", " ++ pyReprObj (y :: xs)

end

/-- Python `str(v)` as used by f-string interpolation. -/
def pyStr : JsonVal → String
  | .str s => s
  | v => pyRepr v

/-- The exceptions the embedded code can raise. -/
inductive PyErr where
  | keyError (k : String)
  | typeError (msg : String)
  | attributeError (msg : String)
deriving DecidableEq

/-- Python `str(e)` for the exceptions above (a `KeyError` prints its key
    quoted). -/
def pyErrMsg : PyErr → String
  | .keyError k => "'" ++ k ++ "'"
  | .typeError msg => msg
  | .attributeError msg => msg

/-- Python whitespace (`\s`, `str.strip`), ASCII fragment. -/
def pyIsSpace (c : Char) : Bool :=
  c = ' ' || c = '\t' || c = '\n' || c = '\r' || c = '\x0b' || c = '\x0c'

/-- Characters matched by the character class `[-•*]` of the bullet-stripping
    regex. -/
def isBulletChar (c : Char) : Bool :=
  c = '-' || c = '•' || c = '*'

/-- The backquote character that delimits markdown code in `clean_text`. -/
def backtickChar : Char := Char.ofNat 96

/-- Match `[\s]*[-•*]\s+` at the current position (a line start).  Returns
    the last consumed character (which decides whether the next scan position
    is again a line start) and the remainder. -/
def bulletMatch (l : List Char) : Option (Char × List Char) :=
  let ws := l.takeWhile pyIsSpace
  match l.drop ws.length with
  | c :: rest =>
    if isBulletChar c then
      let tl := rest.takeWhile pyIsSpace
      match tl.getLast? with
      | some lastC => some (lastC, rest.drop tl.length)
      | none => none
    else none
  | [] => none

/-- Match `[\s]*\d+\.\s+` at the current position (a line start). -/
def numMatch (l : List Char) : Option (Char × List Char) :=
  let ws := l.takeWhile pyIsSpace
  let l1 := l.drop ws.length
  let ds := l1.takeWhile Char.isDigit
  if ds.isEmpty then none
  else
    match l1.drop ds.length with
    | '.' :: rest =>
      let tl := rest.takeWhile pyIsSpace
      match tl.getLast? with
      | some lastC => some (lastC, rest.drop tl.length)
      | none => none
    | _ => none

/-- One `re.sub(pattern, '', text, flags=re.MULTILINE)` pass for a pattern
    anchored with `^`: `re.sub` scans left to right, replaces non-overlapping
    matches and resumes right after each match; `^` (MULTILINE) matches at
    position 0 or right after a newline of the original string. -/
def lineMarkerGo (matchFn : List Char → Option (Char × List Char)) :
    Nat → Bool → List Char → List Char
  | 0, _, l => l
  | _ + 1, _, [] => []
  | fuel + 1, atStart, c :: cs =>
    if atStart then
      match matchFn (c :: cs) with
      | some (lastC, rest) => lineMarkerGo matchFn fuel (lastC = '\n') rest
      | none => c :: lineMarkerGo matchFn fuel (c = '\n') cs
    else c :: lineMarkerGo matchFn fuel (c = '\n') cs

/-- Lazy search for `(.+?)` followed by `close`: the shortest non-empty group
    (newline-free when `noNl`) such that `close` follows.  Returns the group
    and the remainder after `close`. -/
def findClose (close : List Char) (noNl : Bool) :
    Nat → List Char → Option (List Char × List Char)
  | 0, _ => none
  | _ + 1, [] => none
  | fuel + 1, c :: cs =>
    if noNl && c = '\n' then none
    else if close.isPrefixOf cs then some ([c], cs.drop close.length)
    else
      match findClose close noNl fuel cs with
      | some (g, rest) => some (c :: g, rest)
      | none => none

/-- Lazy search for `(.*?)` (DOTALL, possibly empty) followed by `close`. -/
def findCloseEmpty (close : List Char) :
    Nat → List Char → Option (List Char × List Char)
  | 0, l => if close.isPrefixOf l then some ([], l.drop close.length) else none
  | fuel + 1, l =>
    if close.isPrefixOf l then some ([], l.drop close.length)
    else
      match l with
      | [] => none
      | c :: cs =>
        match findCloseEmpty close fuel cs with
        | some (g, rest) => some (c :: g, rest)
        | none => none

/-- One `re.sub` pass for a delimited pattern `opn (.+?) close` (or
    `opn (.*?) close` when `minOne` is false), replaced by the group when
    `keepGroup` (markdown emphasis / inline code) or by nothing (code
    fences). -/
def subDelimGo (opn close : List Char) (minOne noNl keepGroup : Bool) :
    Nat → List Char → List Char
  | 0, l => l
  | _ + 1, [] => []
  | fuel + 1, c :: cs =>
    if opn.isPrefixOf (c :: cs) then
      let after := (c :: cs).drop opn.length
      match (if minOne then findClose close noNl after.length after
             else findCloseEmpty close after.length after) with
      | some (g, rest) =>
        (if keepGroup then g else []) ++ subDelimGo opn close minOne noNl keepGroup fuel rest
      | none => c :: subDelimGo opn close minOne noNl keepGroup fuel cs
    else c :: subDelimGo opn close minOne noNl keepGroup fuel cs

/-- One `re.sub` pass collapsing runs of `ch` of length at least `threshold`
    down to `keep` occurrences (`\n{3,}` → 2, `' '{2,}` → 1). -/
def collapseRunsGo (ch : Char) (threshold keep : Nat) :
    Nat → List Char → List Char
  | 0, l => l
  | _ + 1, [] => []
  | fuel + 1, c :: cs =>
    if c = ch then
      let run := 1 + (cs.takeWhile (fun d => d = ch)).length
      let rest := cs.drop (cs.takeWhile (fun d => d = ch)).length
      if threshold ≤ run then
        List.replicate keep ch ++ collapseRunsGo ch threshold keep fuel rest
      else
        List.replicate run ch ++ collapseRunsGo ch threshold keep fuel rest
    else c :: collapseRunsGo ch threshold keep fuel cs

/-- Remove trailing Python whitespace. -/
def dropTrailingSpaces (l : List Char) : List Char :=
  (l.reverse.dropWhile pyIsSpace).reverse

/-- Python `str.strip()` on a character list. -/
def pyStripList (l : List Char) : List Char :=
  dropTrailingSpaces (l.dropWhile pyIsSpace)

/-- Python `str.strip()`. -/
def pyStrip (s : String) : String :=
  String.mk (pyStripList s.toList)

/-- `clean_text` (app.py lines 193–211): the Text Sanitizer.  The eleven
    transformation steps of the source, in source order. -/
def clean_text (text : String) : String :=
  let l := text.toList
  -- re.sub(r'^[\s]*[-•*]\s+', '', text, flags=re.MULTILINE)
  let l := lineMarkerGo bulletMatch (l.length + 1) true l
  -- re.sub(r'^[\s]*\d+\.\s+', '', text, flags=re.MULTILINE)
  let l := lineMarkerGo numMatch (l.length + 1) true l
  -- re.sub(r'\*\*(.+?)\*\*', r'\1', text)
  let l := subDelimGo ['*', '*'] ['*', '*'] true true true (l.length + 1) l
  -- re.sub(r'\*(.+?)\*', r'\1', text)
  let l := subDelimGo ['*'] ['*'] true true true (l.length + 1) l
  -- re.sub(r'__(.+?)__', r'\1', text)
  let l := subDelimGo ['_', '_'] ['_', '_'] true true true (l.length + 1) l
  -- re.sub(r'_(.+?)_', r'\1', text)
  let l := subDelimGo ['_'] ['_'] true true true (l.length + 1) l
  -- code fences, removed entirely (DOTALL, group may be empty)
  let l := subDelimGo [backtickChar, backtickChar, backtickChar]
      [backtickChar, backtickChar, backtickChar] false false false (l.length + 1) l
  -- inline code markers
  let l := subDelimGo [backtickChar] [backtickChar] true true true (l.length + 1) l
  -- re.sub(r'\n{3,}', '\n\n', text)
  let l := collapseRunsGo '\n' 3 2 (l.length + 1) l
  -- re.sub(r' {2,}', ' ', text)
  let l := collapseRunsGo ' ' 2 1 (l.length + 1) l
  String.mk (pyStripList l)

-- ==================== MOTEUR IA ROBUSTE ====================

/-- Configuration constant `DEFAULT_MODEL` (app.py line 58). -/
def DEFAULT_MODEL : String := "llama-3.3-70b-versatile"

/-- Configuration constant `MAX_RETRIES` (app.py line 59). -/
def MAX_RETRIES : Nat := 3

/-- Configuration constant `RETRY_DELAY`, in seconds (app.py line 60). -/
def RETRY_DELAY : Nat := 3

/-- Outcome of one provider call `client.chat.completions.create(...)`:
    either the call raises, or it returns the message content string. -/
inductive APIResult where
  | raises
  | returns (content : String)

/-- Environment for the boundary systems of the Content Generation Engine:
    client availability, the `json.loads` parser, and the provider call as an
    oracle over (system prompt, user prompt, attempt index). -/
structure LLMEnv where
  clientAvailable : Bool
  json_loads : String → Option JsonVal
  api : String → String → Nat → APIResult

/-- What `generate_academic_content` returns: a parsed JSON value when
    `is_json`, a string otherwise. -/
inductive GenResult where
  | json (v : JsonVal)
  | text (s : String)

/-- Observable behaviour of one `generate_academic_content` call: how many
    provider attempts were made, which `time.sleep` delays ran (in order, in
    seconds), and the returned value. -/
structure GenTrace where
  attempts : Nat
  sleeps : List Nat
  result : GenResult

/-- The fixed persona/style system prompt (app.py lines 96–138), sent with
    every provider call. -/
def system_prompt : String :=
  "Tu es un expert académique de l'ENSA Oujda spécialisé en rédaction de rapports PFE.\n\n" ++
  "🎯 RÈGLES ABSOLUES DE RÉDACTION:\n\n" ++
  "1. STYLE ACADÉMIQUE STRICT\n" ++
  "   ✓ Langage soutenu et scientifique\n" ++
  "   ✓ Phrases complexes et bien structurées\n" ++
  "   ✓ Vocabulaire technique précis du domaine\n" ++
  "   ✓ Ton formel et objectif\n\n" ++
  "2. INTERDICTION TOTALE DES LISTES\n" ++
  "   ✗ JAMAIS de tirets (-)\n" ++
  "   ✗ JAMAIS de puces (•)\n" ++
  "   ✗ JAMAIS de numérotations (1., 2., 3.)\n" ++
  "   ✓ TOUJOURS des paragraphes narratifs fluides\n\n" ++
  "3. CONSTRUCTION NARRATIVE\n" ++
  "   ✓ Connecteurs logiques variés: \"Par ailleurs\", \"En outre\", \"De surcroît\", \"Ainsi\", \"Toutefois\", \"Néanmoins\"\n" ++
  "   ✓ Un paragraphe = une idée complète (5-7 phrases minimum)\n" ++
  "   ✓ Transitions naturelles entre paragraphes\n" ++
  "   ✓ Progression logique du raisonnement\n\n" ++
  "4. DÉVELOPPEMENT TECHNIQUE\n" ++
  "   ✓ Base-toi UNIQUEMENT sur les informations fournies\n" ++
  "   ✗ N'invente JAMAIS de détails techniques non fournis\n" ++
  "   ✓ Si info manquante: reste général et théorique\n" ++
  "   ✓ Explique chaque concept introduit\n\n" ++
  "5. STRUCTURE DES PARAGRAPHES\n" ++
  "   - Phrase d'introduction du concept\n" ++
  "   - Développement technique avec exemples\n" ++
  "   - Implications ou conséquences\n" ++
  "   - Transition vers idée suivante\n\n" ++
  "6. LONGUEUR ET DENSITÉ\n" ++
  "   - Minimum 6 paragraphes substantiels\n" ++
  "   - Chaque paragraphe: 5-7 phrases\n" ++
  "   - Contenu dense et informatif\n" ++
  "   - Éviter les répétitions\n\n" ++
  "EXEMPLE DE PARAGRAPHE ACADÉMIQUE CORRECT:\n" ++
  "\"La conception hydraulique des barrages nécessite une analyse approfondie des caractéristiques hydrologiques du bassin versant. Dans cette optique, les ingénieurs procèdent à l'étude des débits de crue historiques afin d'établir les courbes de débits-fréquences permettant de dimensionner l'évacuateur de crues. Par ailleurs, la modélisation hydrologique intègre les données pluviométriques sur plusieurs décennies pour estimer les apports en eau et les périodes de remplissage optimales. En outre, l'analyse de la bathymétrie du site permet de déterminer la capacité de stockage en fonction des différentes cotes de retenue, information cruciale pour l'optimisation du volume utile du réservoir.\"\n"

/-- The `for attempt in range(MAX_RETRIES)` loop of
    `generate_academic_content` (app.py lines 140–190).  First argument: the
    current `attempt` index; second: loop iterations remaining
    (`MAX_RETRIES - attempt`).  The `remaining = 0` case is the
    post-loop fallback of line 190. -/
def genLoop (env : LLMEnv) (prompt section_name : String) (is_json : Bool) :
    Nat → Nat → GenTrace
  | _, 0 =>
    ⟨0, [], if is_json then .json (.obj [])
     else .text ("Impossible de générer " ++ section_name ++ " après " ++
       toString MAX_RETRIES ++ " tentatives.")⟩
  | attempt, remaining + 1 =>
    match env.api system_prompt prompt attempt with
    | .raises =>
      -- generic `except Exception`
      if attempt < MAX_RETRIES - 1 then
        let t := genLoop env prompt section_name is_json (attempt + 1) remaining
        ⟨t.attempts + 1, RETRY_DELAY :: t.sleeps, t.result⟩
      else
        ⟨1, [], if is_json then .json (.obj [])
         else .text ("Erreur de génération pour " ++ section_name ++ ". Veuillez réessayer.")⟩
    | .returns content =>
      if is_json then
        match env.json_loads content with
        | some parsed => ⟨1, [], .json parsed⟩
        | none =>
          -- `except json.JSONDecodeError`
          if attempt < MAX_RETRIES - 1 then
            let t := genLoop env prompt section_name is_json (attempt + 1) remaining
            ⟨t.attempts + 1, RETRY_DELAY :: t.sleeps, t.result⟩
          else
            ⟨1, [], if is_json then .json (.obj [])
             else .text ("Erreur JSON pour " ++ section_name)⟩
      else
        let cleaned := clean_text content
        if (pyStrip cleaned).length < 200 then
          if attempt < MAX_RETRIES - 1 then
            let t := genLoop env prompt section_name is_json (attempt + 1) remaining
            ⟨t.attempts + 1, RETRY_DELAY :: t.sleeps, t.result⟩
          else ⟨1, [], .text cleaned⟩
        else ⟨1, [], .text cleaned⟩

/-- `generate_academic_content` (app.py lines 77–190): the Content Generation
    Engine, with its no-client early return and retry loop. -/
def generate_academic_content (env : LLMEnv) (prompt : String)
    (section_name : String) (is_json : Bool) : GenTrace :=
  if env.clientAvailable then
    genLoop env prompt section_name is_json 0 MAX_RETRIES
  else
    ⟨0, [], if is_json then .json (.obj [])
     else .text "⚠️ Client Groq non disponible. Vérifiez GROQ_API_KEY dans .env"⟩

/-- The returned value of a `generate_academic_content` call (what callers
    observe; the trace is the instrumentation of sleeps and attempts). -/
def genValue (env : LLMEnv) (prompt : String) (section_name : String)
    (is_json : Bool) : GenResult :=
  (generate_academic_content env prompt section_name is_json).result

-- ==================== ANALYSE & STRUCTURE ====================

/-- F-string interpolation of `d.get(k, dflt)` where `dflt` is a string. -/
def pyGetStr (d : JsonObj) (k : String) (dflt : String) : String :=
  match pyLookup k d with
  | some v => pyStr v
  | none => dflt

/-- F-string interpolation of `d.get(k)` (absent key prints as `None`). -/
def pyGetStrNone (d : JsonObj) (k : String) : String :=
  match pyLookup k d with
  | some v => pyStr v
  | none => "None"

/-- `f"...{secrets.randbelow(900) + 100:03d}"`: the random 3-digit suffix.
    `randbelow 900` is modelled as `rand % 900` for an arbitrary entropy
    input `rand`. -/
def format03 (n : Nat) : String :=
  if n < 10 then "00" ++ toString n
  else if n < 100 then "0" ++ toString n
  else toString n

/-- A synthesized order number `ENSA-OUD-<year>-<3 digits>`
    (app.py lines 286 and 296). -/
def mkOrderId (year rand : Nat) : String :=
  "ENSA-OUD-" ++ toString year ++ "-" ++ format03 (rand % 900 + 100)

/-- `analysis_prompt` (app.py lines 223–276), with the user-data and year
    interpolations of the source f-string. -/
def analysis_prompt (user_data : JsonObj) (year : Nat) : String :=
  "Analyse ce projet PFE et génère une structure professionnelle adaptée:\n\n" ++
  "📋 DONNÉES PROJET:\n" ++
  "- Sujet: " ++ pyGetStr user_data "subject" "Non spécifié" ++ "\n" ++
  "- Filière: " ++ pyGetStr user_data "student_filiere" "Non spécifiée" ++ "\n" ++
  "- Contexte: " ++ pyGetStr user_data "context" "" ++ "\n" ++
  "- Technologies: " ++ pyGetStr user_data "technologies" "" ++ "\n" ++
  "- Objectifs: " ++ pyGetStr user_data "objectives" "" ++ "\n" ++
  "- Domaine: " ++ pyGetStr user_data "domain" "" ++ "\n\n" ++
  "🎯 TÂCHES:\n\n" ++
  "1. IDENTIFICATION DU DÉPARTEMENT\n" ++
  "   Déduis le département ENSA Oujda exact parmi:\n" ++
  "   - Génie Informatique\n" ++
  "   - Génie Civil et Hydraulique\n" ++
  "   - Génie Industriel et Logistique\n" ++
  "   - Génie Électrique et Télécommunications\n" ++
  "   - Génie Mécanique\n" ++
  "   Base-toi sur le sujet et les technologies.\n\n" ++
  "2. FILIÈRE PRÉCISE\n" ++
  "   Confirme ou corrige la filière (ex: \"Génie Hydraulique\", \"Ingénierie Logicielle\")\n\n" ++
  "3. NUMÉRO D'ORDRE\n" ++
  "   Format: ENSA-OUD-" ++ toString year ++ "-XXX\n" ++
  "   (XXX = numéro aléatoire 3 chiffres)\n\n" ++
  "4. STRUCTURE INTELLIGENTE (3 chapitres)\n" ++
  "   Adapte au domaine:\n   \n" ++
  "   DOMAINES TECHNIQUES (Info, Élec, Indus):\n" ++
  "   - Chapitre 1: Contexte et état de l'art / Étude théorique\n" ++
  "   - Chapitre 2: Analyse des besoins et conception\n" ++
  "   - Chapitre 3: Réalisation et résultats\n   \n" ++
  "   DOMAINES SCIENTIFIQUES (Civil, Méca, Hydro):\n" ++
  "   - Chapitre 1: État de l'art et contexte\n" ++
  "   - Chapitre 2: Étude et dimensionnement\n" ++
  "   - Chapitre 3: Modélisation et résultats\n   \n" ++
  "   Titres SPÉCIFIQUES au projet, pas génériques!\n\n" ++
  "📤 RÉPONSE JSON:\n" ++
  "\x7b\n" ++
  "    \"department\": \"Département exact\",\n" ++
  "    \"filiere\": \"Filière précise\",\n" ++
  "    \"order_id\": \"ENSA-OUD-YYYY-XXX\",\n" ++
  "    \"structure\": [\n" ++
  "        \x7b\"id\": \"chapitre1\", \"title\": \"Titre spécifique chapitre 1\", \"keywords\": [\"mot-clé1\", \"mot-clé2\"]\x7d,\n" ++
  "        \x7b\"id\": \"chapitre2\", \"title\": \"Titre spécifique chapitre 2\", \"keywords\": [\"mot-clé1\", \"mot-clé2\"]\x7d,\n" ++
  "        \x7b\"id\": \"chapitre3\", \"title\": \"Titre spécifique chapitre 3\", \"keywords\": [\"mot-clé1\", \"mot-clé2\"]\x7d\n" ++
  "    ]\n" ++
  "\x7d"

/-- The hard-coded default chapter structure (app.py lines 287–291). -/
def default_structure : List JsonVal :=
  [.obj [("id", .str "chapitre1"), ("title", .str "Contexte général et état de l'art"), ("keywords", .arr [])],
   .obj [("id", .str "chapitre2"), ("title", .str "Analyse et conception"), ("keywords", .arr [])],
   .obj [("id", .str "chapitre3"), ("title", .str "Réalisation et résultats"), ("keywords", .arr [])]]

/-- The default metadata dict returned when the analyzer result is falsy or
    not a dict (app.py lines 283–292). -/
def default_metadata (user_data : JsonObj) (year rand : Nat) : JsonObj :=
  [("department", .str "Génie Informatique"),
   ("filiere", (pyLookup "student_filiere" user_data).getD (.str "Cycle Ingénieur")),
   ("order_id", .str (mkOrderId year rand)),
   ("structure", .arr default_structure)]

/-- `analyze_project` (app.py lines 216–298).  `year` stands for
    `datetime.now().year` and `rand` for the `secrets.randbelow` entropy; the
    source draws the random suffix inside whichever branch needs it, and only
    one branch runs per call. -/
def analyze_project (env : LLMEnv) (user_data : JsonObj) (year rand : Nat) :
    JsonObj :=
  match genValue env (analysis_prompt user_data year) "Analyse Structure" true with
  | .json (.obj fields) =>
    if fields.isEmpty then
      -- `not result` → default
      default_metadata user_data year rand
    else if (pyLookup "order_id" fields).isNone then
      -- `if 'order_id' not in result:` backfill (new key appends)
      fields ++ [("order_id", .str (mkOrderId year rand))]
    else fields
  | .json _ => default_metadata user_data year rand   -- not a dict
  | .text _ => default_metadata user_data year rand   -- unreachable in JSON mode

/-- The `structure` entry of an analyzer result, when it is a JSON list. -/
def metaStructure (metadata : JsonObj) : Option (List JsonVal) :=
  match pyLookup "structure" metadata with
  | some (.arr xs) => some xs
  | _ => none

-- ==================== GÉNÉRATION SECTIONS ====================

/-- A hashable Python dict key (list/dict keys raise `TypeError`). -/
inductive PyKey where
  | s (v : String)
  | i (n : Int)
  | b (v : Bool)
  | none_
deriving DecidableEq

/-- Using a JSON value as a dict key (hashability check). -/
def toKey : JsonVal → Except PyErr PyKey
  | .str s => .ok (.s s)
  | .num n => .ok (.i n)
  | .bool b => .ok (.b b)
  | .null => .ok .none_
  | .arr _ => .error (.typeError "unhashable type: 'list'")
  | .obj _ => .error (.typeError "unhashable type: 'dict'")

/-- The `sections` dict built by the Section Orchestrator. -/
abbrev SectionMap := List (PyKey × GenResult)

/-- Subscript access `d[k]` on a dict (raises `KeyError` when absent). -/
def getItem (d : JsonObj) (k : String) : Except PyErr JsonVal :=
  match pyLookup k d with
  | some v => .ok v
  | none => .error (.keyError k)

/-- Subscript access `v['k']` on an arbitrary value (non-dicts raise). -/
def asObj : JsonVal → Except PyErr JsonObj
  | .obj fields => .ok fields
  | _ => .error (.typeError "object is not subscriptable")

/-- Python iteration over the `structure` value (`enumerate(structure, 1)`):
    lists yield elements, strings characters, dicts their keys; other values
    raise `TypeError`. -/
def iterChapters : JsonVal → Except PyErr (List JsonVal)
  | .arr xs => .ok xs
  | .str s => .ok (s.toList.map (fun c => .str (String.mk [c])))
  | .obj fields => .ok (fields.map (fun p => .str p.1))
  | _ => .error (.typeError "object is not iterable")

/-- Elements of a list being joined must be strings. -/
def strItems : List JsonVal → Except PyErr (List String)
  | [] => .ok []
  | .str s :: rest => do
    let r ← strItems rest
    .ok (s :: r)
  | _ :: _ => .error (.typeError "sequence item: expected str instance")

/-- Python `sep.join(v)`: joins a list of strings, the characters of a
    string, or the keys of a dict; other values raise `TypeError`. -/
def pyJoin (sep : String) : JsonVal → Except PyErr String
  | .arr xs => do
    let ss ← strItems xs
    .ok (String.intercalate sep ss)
  | .str s => .ok (String.intercalate sep (s.toList.map (fun c => String.mk [c])))
  | .obj fields => .ok (String.intercalate sep (fields.map Prod.fst))
  | _ => .error (.typeError "can only join an iterable")

/-- `keywords_str` (app.py line 410):
    `", ".join(chap.get('keywords', [])) if chap.get('keywords') else "concepts techniques"`. -/
def keywords_str (chap : JsonObj) : Except PyErr String :=
  match pyLookup "keywords" chap with
  | some v => if pyTruthy v then pyJoin ", " v else .ok "concepts techniques"
  | none => .ok "concepts techniques"

/-- The labeled context block shared by all section prompts
    (app.py lines 313–330). -/
def build_project_context (user_data : JsonObj) : String :=
  let parts : List String := []
  let parts := if pyTruthyOpt (pyLookup "subject" user_data) then
      parts ++ ["**Sujet:** " ++ pyGetStrNone user_data "subject"] else parts
  let parts := if pyTruthyOpt (pyLookup "student_filiere" user_data) then
      parts ++ ["**Filière:** " ++ pyGetStrNone user_data "student_filiere"] else parts
  let parts := if pyTruthyOpt (pyLookup "context" user_data) then
      parts ++ ["**Contexte:** " ++ pyGetStrNone user_data "context"] else parts
  let parts := if pyTruthyOpt (pyLookup "objectives" user_data) then
      parts ++ ["**Objectifs:** " ++ pyGetStrNone user_data "objectives"] else parts
  let parts := if pyTruthyOpt (pyLookup "technologies" user_data) then
      parts ++ ["**Technologies:** " ++ pyGetStrNone user_data "technologies"] else parts
  let parts := if pyTruthyOpt (pyLookup "methodology" user_data) then
      parts ++ ["**Méthodologie:** " ++ pyGetStrNone user_data "methodology"] else parts
  let parts := if pyTruthyOpt (pyLookup "results" user_data) then
      parts ++ ["**Résultats attendus:** " ++ pyGetStrNone user_data "results"] else parts
  if parts.isEmpty then "Projet de fin d'études." else String.intercalate "\n" parts

/-- `remerciements_prompt` (app.py lines 334–353). -/
def remerciements_prompt (user_data : JsonObj) : String :=
  let etudiant := pyGetStr user_data "student_name" "l'étudiant"
  let encadrant := pyGetStr user_data "supervisor" "l'encadrant académique"
  -- `user_data.get('company', '') or 'ENSA Oujda'`
  let entreprise := if pyTruthyOpt (pyLookup "company" user_data) then
      pyGetStr user_data "company" "" else "ENSA Oujda"
  let jury := pyGetStr user_data "jury" "les membres du jury"
  "Rédige des REMERCIEMENTS formels et chaleureux pour un rapport PFE ENSA Oujda.\n\n" ++
  "**Contexte:**\n" ++
  "- Étudiant: " ++ etudiant ++ "\n" ++
  "- Encadrant: " ++ encadrant ++ "\n" ++
  "- Entreprise: " ++ entreprise ++ "\n" ++
  "- Jury: " ++ jury ++ "\n\n" ++
  "**Structure attendue (paragraphes narratifs):**\n" ++
  "1. Remerciement sincère à l'encadrant pour guidance et soutien\n" ++
  "2. Gratitude envers l'équipe pédagogique et département\n" ++
  "3. Remerciement à l'entreprise/organisme d'accueil (si applicable)\n" ++
  "4. Reconnaissance envers les membres du jury\n" ++
  "5. Remerciement familial et amical\n\n" ++
  "**Consignes:**\n" ++
  "- 4-5 paragraphes fluides et personnalisés\n" ++
  "- Ton reconnaissant mais professionnel\n" ++
  "- Transitions naturelles entre remerciements\n" ++
  "- Aucune liste, tout en prose"

/-- `intro_prompt` (app.py lines 362–399). -/
def intro_prompt (project_context : String) (metadata : JsonObj) : String :=
  "Rédige une INTRODUCTION GÉNÉRALE académique pour un rapport PFE.\n\n" ++
  project_context ++ "\n\n" ++
  "**Département:** " ++ pyGetStr metadata "department" "ENSA Oujda" ++ "\n\n" ++
  "**L'introduction doit développer (en paragraphes narratifs):**\n\n" ++
  "1. **Contexte général du domaine**\n" ++
  "   - Importance du domaine d'étude\n" ++
  "   - État actuel des connaissances\n" ++
  "   - Tendances et enjeux\n\n" ++
  "2. **Problématique identifiée**\n" ++
  "   - Présentation du problème technique/scientifique\n" ++
  "   - Lacunes ou besoins identifiés\n" ++
  "   - Justification de l'intérêt du projet\n\n" ++
  "3. **Objectifs du projet**\n" ++
  "   - Objectifs généraux et spécifiques\n" ++
  "   - Résultats attendus\n" ++
  "   - Contributions envisagées\n\n" ++
  "4. **Intérêt et enjeux**\n" ++
  "   - Apport technique/scientifique\n" ++
  "   - Impact pratique ou industriel\n" ++
  "   - Pertinence académique\n\n" ++
  "5. **Annonce du plan**\n" ++
  "   - Structure du rapport\n" ++
  "   - Logique de présentation\n\n" ++
  "**Consignes:**\n" ++
  "- 6-7 paragraphes denses\n" ++
  "- Chaque paragraphe: 5-7 phrases\n" ++
  "- Style académique soutenu\n" ++
  "- Progression logique\n" ++
  "- Aucune liste"

/-- `chapitre_prompt` (app.py lines 412–451). -/
def chapitre_prompt (i : Nat) (title : JsonVal) (project_context kw : String) :
    String :=
  "Rédige le CONTENU COMPLET du chapitre suivant pour un rapport PFE:\n\n" ++
  "**CHAPITRE " ++ toString i ++ ": " ++ pyStr title ++ "**\n\n" ++
  project_context ++ "\n\n" ++
  "**Mots-clés à intégrer:** " ++ kw ++ "\n\n" ++
  "**Consignes selon la nature du chapitre:**\n\n" ++
  "Si CHAPITRE 1 (État de l'art/Contexte):\n" ++
  "- Revue de littérature approfondie\n" ++
  "- État des connaissances actuelles\n" ++
  "- Technologies/méthodes existantes\n" ++
  "- Positionnement du projet\n\n" ++
  "Si CHAPITRE 2 (Analyse/Conception):\n" ++
  "- Analyse des besoins ou étude préliminaire\n" ++
  "- Choix méthodologiques justifiés\n" ++
  "- Architecture ou modèle proposé\n" ++
  "- Spécifications détaillées\n\n" ++
  "Si CHAPITRE 3 (Réalisation/Résultats):\n" ++
  "- Description de la mise en œuvre\n" ++
  "- Défis techniques rencontrés\n" ++
  "- Solutions apportées\n" ++
  "- Résultats obtenus et validation\n\n" ++
  "**Exigences:**\n" ++
  "- 8-10 paragraphes substantiels minimum\n" ++
  "- Chaque paragraphe: 6-8 phrases\n" ++
  "- Développement technique dense\n" ++
  "- Cohérence et progression logique\n" ++
  "- Utilise UNIQUEMENT les infos fournies\n" ++
  "- Si infos manquantes: reste théorique et général\n" ++
  "- Aucune liste, tout en prose narrative\n" ++
  "- Sous-titres possibles avec ## (max 3)\n\n" ++
  "**Style:**\n" ++
  "Académique, technique, formel. Connecteurs variés."

/-- `conclusion_prompt` (app.py lines 460–496). -/
def conclusion_prompt (project_context : String) : String :=
  "Rédige une CONCLUSION GÉNÉRALE pour un rapport PFE.\n\n" ++
  project_context ++ "\n\n" ++
  "**La conclusion doit aborder (en paragraphes fluides):**\n\n" ++
  "1. **Synthèse des réalisations**\n" ++
  "   - Récapitulatif des travaux effectués\n" ++
  "   - Objectifs atteints\n" ++
  "   - Résultats marquants\n\n" ++
  "2. **Bilan des compétences**\n" ++
  "   - Compétences techniques acquises\n" ++
  "   - Savoir-faire développés\n" ++
  "   - Méthodes maîtrisées\n\n" ++
  "3. **Difficultés et solutions**\n" ++
  "   - Défis rencontrés\n" ++
  "   - Solutions apportées\n" ++
  "   - Leçons tirées\n\n" ++
  "4. **Apport personnel**\n" ++
  "   - Enrichissement professionnel\n" ++
  "   - Expérience humaine\n" ++
  "   - Vision du métier d'ingénieur\n\n" ++
  "5. **Perspectives et évolutions**\n" ++
  "   - Améliorations possibles\n" ++
  "   - Extensions envisageables\n" ++
  "   - Recherches futures\n" ++
  "   - Applications industrielles\n\n" ++
  "**Consignes:**\n" ++
  "- 5-6 paragraphes narratifs\n" ++
  "- Ton réflexif et prospectif\n" ++
  "- Ouverture vers l'avenir\n" ++
  "- Aucune liste"

/-- `biblio_prompt` (app.py lines 505–533). -/
def biblio_prompt (user_data metadata : JsonObj) : String :=
  "Génère une BIBLIOGRAPHIE et WEBOGRAPHIE au format IEEE.\n\n" ++
  "**Sujet:** " ++ pyGetStrNone user_data "subject" ++ "\n" ++
  "**Technologies:** " ++ pyGetStr user_data "technologies" "" ++ "\n" ++
  "**Domaine:** " ++ pyGetStr metadata "department" "" ++ "\n\n" ++
  "**Contenu attendu:**\n\n" ++
  "1. **Ouvrages de référence (3-4)**\n" ++
  "   - Livres académiques du domaine\n" ++
  "   - Manuels techniques\n" ++
  "   Format: [X] Auteur, *Titre du livre*, Éditeur, Ville, Année.\n\n" ++
  "2. **Articles scientifiques (2-3)**\n" ++
  "   - Publications de conférences\n" ++
  "   - Articles de revues\n" ++
  "   Format: [X] Auteur, \"Titre article\", *Nom revue*, vol. X, no. Y, pp. Z, Année.\n\n" ++
  "3. **Ressources web (3-4)**\n" ++
  "   - Documentation officielle\n" ++
  "   - Sites techniques de référence\n" ++
  "   - Standards et normes\n" ++
  "   Format: [X] \"Titre\", URL, consulté le JJ/MM/AAAA.\n\n" ++
  "**Consignes:**\n" ++
  "- Références réalistes et pertinentes au domaine\n" ++
  "- Numérotation continue [1], [2], etc.\n" ++
  "- Présentation en paragraphes avec numéros\n" ++
  "- Format IEEE standard strict"

/-- The chapter loop of `generate_all_sections` (app.py lines 407–456);
    `i` is the 1-based `enumerate` index.  `chap['title']` is read (for the
    log line and the prompt) before the engine call; `chap['id']` is read
    afterwards, when storing the result. -/
def chapterLoop (env : LLMEnv) (project_context : String) :
    Nat → List JsonVal → SectionMap → Except PyErr SectionMap
  | _, [], sections => .ok sections
  | i, chap :: rest, sections => do
    let chapFields ← asObj chap
    let title ← getItem chapFields "title"
    let kw ← keywords_str chapFields
    let content := genValue env (chapitre_prompt i title project_context kw)
        ("Chapitre " ++ toString i) false
    let cid ← getItem chapFields "id"
    let key ← toKey cid
    chapterLoop env project_context (i + 1) rest (pyDictSet sections key content)

/-- `generate_all_sections` (app.py lines 303–540): the Section
    Orchestrator. -/
def generate_all_sections (env : LLMEnv) (user_data metadata : JsonObj) :
    Except PyErr SectionMap := do
  let sections : SectionMap := []
  let structList := (pyLookup "structure" metadata).getD (.arr [])
  let project_context := build_project_context user_data
  let sections := pyDictSet sections (.s "remerciements")
      (genValue env (remerciements_prompt user_data) "Remerciements" false)
  let sections := pyDictSet sections (.s "introduction")
      (genValue env (intro_prompt project_context metadata) "Introduction" false)
  let chaps ← iterChapters structList
  let sections ← chapterLoop env project_context 1 chaps sections
  let sections := pyDictSet sections (.s "conclusion")
      (genValue env (conclusion_prompt project_context) "Conclusion" false)
  let sections := pyDictSet sections (.s "biblio")
      (genValue env (biblio_prompt user_data metadata) "Bibliographie" false)
  .ok sections

-- ==================== PDF ENGINE PROFESSIONNEL ====================

/-- The mutable state of the `PDFCanvas` subclass (app.py lines 545–563):
    ReportLab's page counter `_pageNumber` (starting at 1) and the buffered
    `_saved_page_states`, of which only the captured page number is relevant
    to the footer pass. -/
structure PDFCanvasState where
  student_name : String
  pageNumber : Nat
  savedStates : List Nat

/-- `PDFCanvas.showPage`: buffer the current page state, then `_startPage`
    (which advances `_pageNumber`). -/
def PDFCanvasState.showPage (c : PDFCanvasState) : PDFCanvasState :=
  { c with savedStates := c.savedStates ++ [c.pageNumber],
           pageNumber := c.pageNumber + 1 }

/-- `PDFCanvas.draw_footer` (app.py lines 565–579): the footer stamped on
    one page — `none` when suppressed (page 1), otherwise the left text and
    the page-number text.  The `total_pages` argument is passed by `save`
    but, as in the source, not used by the drawing code. -/
def draw_footer (student_name : String) (page : Nat) (_total_pages : Nat) :
    Option (String × String) :=
  if page > 1 then
    some ("ENSA Oujda - Rapport de PFE - " ++ student_name,
          "Page " ++ toString (page - 1))
  else none

/-- `PDFCanvas.save` (app.py lines 557–563): replay each buffered page state
    and stamp its footer, knowing the total page count. -/
def PDFCanvasState.save (c : PDFCanvasState) : List (Option (String × String)) :=
  c.savedStates.map (fun p => draw_footer c.student_name p c.savedStates.length)

/-- The canvas after rendering a document of `n` physical pages (a fresh
    canvas followed by `n` `showPage` calls). -/
def showPages (student_name : String) : Nat → PDFCanvasState
  | 0 => ⟨student_name, 1, []⟩
  | n + 1 => (showPages student_name n).showPage

/-- A flowable appended to the `story` (styles by their source names). -/
inductive Flowable where
  | para (style : String) (text : String)
  | spacer
  | hline
  | table (rows : List (String × String))
  | pageBreak

/-- Python `str.upper()`, ASCII fragment. -/
def pyUpper (s : String) : String := s.toUpper

/-- `.upper()` on an arbitrary value (non-strings raise
    `AttributeError`). -/
def pyUpperVal : JsonVal → Except PyErr String
  | .str s => .ok (pyUpper s)
  | _ => .error (.attributeError "object has no attribute 'upper'")

/-- `sections.get(key, dflt)` followed by `.split(...)`-style string use:
    a non-string stored value would raise on `.split`. -/
def getSectionStr (sections : SectionMap) (key : PyKey) (dflt : String) :
    Except PyErr String :=
  match pyLookup key sections with
  | none => .ok dflt
  | some (.text s) => .ok s
  | some (.json _) => .error (.attributeError "object has no attribute 'split'")

/-- Paragraph rendering for acknowledgements and bibliography (app.py lines
    826–828 and 909–911): split on blank lines, skip empties, no sub-heading
    handling. -/
def renderParasPlain (content : String) : List Flowable :=
  (content.splitOn "\n\n").filterMap (fun para =>
    if (pyStrip para).isEmpty then none
    else some (.para "Body" (pyStrip para)))

/-- Paragraph rendering with `##` sub-heading handling, used for the
    introduction, chapters and conclusion (app.py lines 852–859 etc.). -/
def renderParasH (content : String) : List Flowable :=
  (content.splitOn "\n\n").filterMap (fun para0 =>
    let para := pyStrip para0
    if para.isEmpty then none
    else if para.startsWith "##" then
      some (.para "SubSection" (pyStrip (para.replace "##" "")))
    else some (.para "Body" para))

/-- The chapter lines of the table of contents (app.py lines 838–839):
    `f"{i+1}. Chapitre {i} : {chap['title']}"` for the 1-based index `i`. -/
def toc_items_loop : Nat → List JsonVal → Except PyErr (List String)
  | _, [] => .ok []
  | i, chap :: rest => do
    let f ← asObj chap
    let t ← getItem f "title"
    let r ← toc_items_loop (i + 1) rest
    .ok ((toString (i + 1) ++ ". Chapitre " ++ toString i ++ " : " ++ pyStr t) :: r)

/-- The full `toc_items` list (app.py lines 837–840). -/
def toc_items (chaps : List JsonVal) : Except PyErr (List String) := do
  let chapterLines ← toc_items_loop 1 chaps
  .ok (["I. Introduction Générale"] ++ chapterLines ++
       ["Conclusion Générale", "Bibliographie & Webographie"])

/-- The chapter-rendering loop of `create_professional_pdf` (app.py lines
    865–886). -/
def renderChapters (sections : SectionMap) :
    Nat → List JsonVal → Except PyErr (List Flowable)
  | _, [] => .ok []
  | i, chap :: rest => do
    let f ← asObj chap
    let t ← getItem f "title"
    let tUp ← pyUpperVal t
    let cid ← getItem f "id"
    let key ← toKey cid
    let content ← getSectionStr sections key "Contenu non disponible."
    let r ← renderChapters sections (i + 1) rest
    .ok ([.para "ChapterNum" ("CHAPITRE " ++ toString i),
          .para "ChapterTitle" tUp, .hline, .spacer] ++
         renderParasH content ++ [.pageBreak] ++ r)

/-- `create_professional_pdf` (app.py lines 582–925): assembles the story
    and the timestamped filename.  `timestamp` stands for
    `datetime.now().strftime('%Y%m%d_%H%M%S')` and `year` for
    `datetime.now().year`; the physical PDF write (`doc.build`) is the
    boundary library. -/
def create_professional_pdf (user_data : JsonObj) (sections : SectionMap)
    (metadata : JsonObj) (timestamp : String) (year : Nat) :
    Except PyErr (String × List Flowable) := do
  let filename := "Rapport_PFE_" ++ timestamp ++ ".pdf"
  let structList := (pyLookup "structure" metadata).getD (.arr [])
  -- page de garde (`user_data['subject'].upper()` can raise)
  let subjectVal ← getItem user_data "subject"
  let subjectUp ← pyUpperVal subjectVal
  let interv := [("<b>Réalisé par :</b>", pyGetStr user_data "student_name" "Étudiant")]
  let interv := if pyTruthyOpt (pyLookup "supervisor" user_data) then
      interv ++ [("<b>Encadrant(s) :</b>", pyGetStrNone user_data "supervisor")] else interv
  let interv := if pyTruthyOpt (pyLookup "jury" user_data) then
      interv ++ [("<b>Membres du Jury :</b>", pyGetStrNone user_data "jury")] else interv
  let acadYear := pyGetStr user_data "academic_year"
      (toString (year - 1) ++ "/" ++ toString year)
  let story : List Flowable :=
    [.spacer,
     .para "Royaume" "ROYAUME DU MAROC",
     .para "Univ" "Université Mohammed Premier",
     .para "Univ" "École Nationale des Sciences Appliquées - Oujda",
     .spacer, .hline, .spacer,
     .para "Meta" ("<b>Département :</b> " ++ pyGetStr metadata "department" "N/A"),
     .para "Meta" ("<b>Filière :</b> " ++
       pyGetStr metadata "filiere" (pyGetStr user_data "student_filiere" "N/A")),
     .para "Meta" ("<b>N° d'ordre :</b> " ++ pyGetStr metadata "order_id" "N/A"),
     .spacer,
     .para "DocType" "MÉMOIRE DE PROJET DE FIN D'ÉTUDE",
     .spacer,
     .para "Title" subjectUp,
     .spacer,
     .para "SubTitle" "Soutenu en vue de l'obtention du<br/>Diplôme d'Ingénieur d'État",
     .spacer,
     .table interv,
     .spacer,
     .para "Year" ("<b>Année Universitaire : " ++ acadYear ++ "</b>"),
     .pageBreak]
  -- remerciements
  let rem ← getSectionStr sections (.s "remerciements") ""
  let story := story ++ [.para "SectionTitle" "REMERCIEMENTS", .spacer] ++
      renderParasPlain rem ++ [.pageBreak]
  -- table des matières
  let chaps ← iterChapters structList
  let items ← toc_items chaps
  let story := story ++ [.para "SectionTitle" "TABLE DES MATIÈRES", .spacer] ++
      items.map (fun it => .para "TOC" ("<b>" ++ it ++ "</b>")) ++ [.pageBreak]
  -- introduction
  let intro ← getSectionStr sections (.s "introduction") ""
  let story := story ++ [.para "SectionTitle" "INTRODUCTION GÉNÉRALE", .spacer] ++
      renderParasH intro ++ [.pageBreak]
  -- chapitres
  let chapFls ← renderChapters sections 1 chaps
  let story := story ++ chapFls
  -- conclusion
  let concl ← getSectionStr sections (.s "conclusion") ""
  let story := story ++ [.para "SectionTitle" "CONCLUSION GÉNÉRALE", .spacer] ++
      renderParasH concl ++ [.pageBreak]
  -- bibliographie
  let biblio ← getSectionStr sections (.s "biblio") ""
  let story := story ++ [.para "SectionTitle" "BIBLIOGRAPHIE & WEBOGRAPHIE", .spacer] ++
      renderParasPlain biblio
  .ok (filename, story)

-- ==================== ROUTES ====================

/-- Result of the `POST /generate` endpoint. -/
inductive RouteResult where
  | badRequest (body : JsonVal)
  | ok (body : JsonVal)
  | serverError (body : JsonVal)

/-- `required = ['subject', 'student_name', 'supervisor']`
    (app.py line 943). -/
def required_fields : List String := ["subject", "student_name", "supervisor"]

/-- The `generate` route (app.py lines 935–969): validation, then the
    pipeline under the catch-all `except` that yields an HTTP 500. -/
def generate (env : LLMEnv) (data : JsonObj) (year rand : Nat)
    (timestamp : String) : RouteResult :=
  match required_fields.find? (fun field => !pyTruthyOpt (pyLookup field data)) with
  | some field =>
    .badRequest (.obj [("success", .bool false),
                       ("error", .str ("Champ requis: " ++ field))])
  | none =>
    let metadata := analyze_project env data year rand
    match generate_all_sections env data metadata with
    | .error e =>
      .serverError (.obj [("success", .bool false), ("error", .str (pyErrMsg e))])
    | .ok sections =>
      match create_professional_pdf data sections metadata timestamp year with
      | .error e =>
        .serverError (.obj [("success", .bool false), ("error", .str (pyErrMsg e))])
      | .ok (pdf_filename, _story) =>
        .ok (.obj [("success", .bool true),
                   ("pdf_url", .str ("/static/rapports/" ++ pdf_filename)),
                   ("filename", .str pdf_filename),
                   ("metadata", .obj metadata)])

/-- An environment in which the provider call always raises. -/
def envAllFail : LLMEnv :=
  ⟨true, fun _ => none, fun _ _ _ => .raises⟩

/-- An environment in which the provider returns content that parses to a
    non-empty JSON object that has no `order_id` and no `structure` field. -/
def envDeptOnly : LLMEnv :=
  ⟨true, fun _ => some (.obj [("department", .str "Génie Informatique")]),
   fun _ _ _ => .returns "x"⟩

/-- A well-formed chapter record for the Section Orchestrator: an object
    providing a `title`, a string `id`, and keywords that `", ".join` can
    process (absent, falsy, or a list of strings). -/
def chapOk (c : JsonVal) : Bool :=
  match c with
  | .obj f =>
    (pyLookup "title" f).isSome &&
    (match pyLookup "id" f with | some (.str _) => true | _ => false) &&
    (match keywords_str f with | .ok _ => true | .error _ => false)
  | _ => false

/-- The string id of a chapter record, when present. -/
def chapId : JsonVal → Option String
  | .obj f =>
    match pyLookup "id" f with
    | some (.str s) => some s
    | _ => none
  | _ => none

/-- The four fixed section keys of the SectionMap. -/
def fixed_section_keys : List String :=
  ["remerciements", "introduction", "conclusion", "biblio"]

/-- A metadata whose two chapters share the id `chapitre1`. -/
def mdDup : JsonObj :=
  [("structure", .arr
    [.obj [("id", .str "chapitre1"), ("title", .str "A")],
     .obj [("id", .str "chapitre1"), ("title", .str "B")]])]

/-- The number of keys of an orchestrator result, when it succeeds. -/
def sectionCount : Except PyErr SectionMap → Option Nat
  | .ok m => some m.length
  | .error _ => none

/-- A chapter record that the TOC loop can process: an object with a
    `title`. -/
def chapTitledObj (c : JsonVal) : Bool :=
  match c with
  | .obj f => (pyLookup "title" f).isSome
  | _ => false

/-- All stored section values are strings (as produced by the prose-mode
    orchestrator). -/
def sectionsAllText (sections : SectionMap) : Bool :=
  sections.all (fun p => match p.2 with | .text _ => true | .json _ => false)

/-- An environment whose analyzer JSON result carries a structure whose only
    chapter has a `title` but no `id`, and whose prose calls return a short
    fixed string. -/
def envStructBad : LLMEnv :=
  ⟨true, fun _ => some (.obj [("structure", .arr [.obj [("title", .str "T")]])]),
   fun _ _ _ => .returns "x"⟩

/-- Scanner deciding that a list never contains `t` consecutive copies of
    `ch`; `cnt` is the length of the current run. -/
def noRunGo (ch : Char) (t : Nat) : Nat → List Char → Bool
  | _, [] => true
  | cnt, c :: cs =>
    if c = ch then
      if t ≤ cnt + 1 then false else noRunGo ch t (cnt + 1) cs
    else noRunGo ch t 0 cs

/-- No `t` consecutive copies of `ch` anywhere in `l`. -/
def noRunB (ch : Char) (t : Nat) (l : List Char) : Bool :=
  noRunGo ch t 0 l

/-- The characters that can trigger one of the eight marker-removal
    regexes of `clean_text`: bullet characters (`-`, `•`, `*`), underscore,
    backquote, and digits. -/
def isMarkerChar (c : Char) : Bool :=
  isBulletChar c || c = '_' || c = backtickChar || c.isDigit

/-- A text containing no marker characters at all. -/
def markerFree (s : String) : Bool :=
  s.toList.all (fun c => !isMarkerChar c)

-- ==================== THEOREMS ====================

-- Shared concrete environments and inputs for witnesses and counterexamples.

/-- C1: if every provider attempt fails, `generate_academic_content` makes
    exactly `MAX_RETRIES = 3` attempts separated by exactly two
    `RETRY_DELAY = 3`-second sleeps, and returns the empty mapping in JSON
    mode or the fallback string naming the section in prose mode; no
    exception propagates (the embedding is a total function into `GenTrace`,
    every failure branch of the source returning a sentinel value). -/
theorem retry_exhaustion_contract (env : LLMEnv) (prompt section_name : String)
    (is_json : Bool) (hclient : env.clientAvailable = true)
    (hfail : ∀ a, env.api system_prompt prompt a = .raises) :
    generate_academic_content env prompt section_name is_json =
      ⟨3, [3, 3],
       if is_json then .json (.obj [])
       else .text ("Erreur de génération pour " ++ section_name ++
         ". Veuillez réessayer.")⟩ := by
  simp only [generate_academic_content, hclient, if_true, MAX_RETRIES]
  simp [genLoop, hfail 0, hfail 1, hfail 2, MAX_RETRIES, RETRY_DELAY]

/-- Witness for C1 at a concrete failing environment, in prose mode. -/
theorem retry_exhaustion_contract_witness :
    generate_academic_content envAllFail "p" "Introduction" false =
      ⟨3, [3, 3],
       .text "Erreur de génération pour Introduction. Veuillez réessayer."⟩ :=
  retry_exhaustion_contract envAllFail "p" "Introduction" false rfl (fun _ => rfl)

/-- After `n` `showPage` calls the buffered states carry page numbers
    `1, 2, ..., n` and the counter stands at `n + 1`. -/
theorem showPages_savedStates (name : String) (P : Nat) :
    (showPages name P).savedStates = (List.range P).map (· + 1) ∧
      (showPages name P).pageNumber = P + 1 ∧
      (showPages name P).student_name = name := by
  induction P with
  | zero => simp [showPages]
  | succ n ih =>
    simp [showPages, PDFCanvasState.showPage, ih.1, ih.2.1, ih.2.2,
      List.range_succ]

/-- C7: in a rendered document of `P` physical pages, the footer pass stamps
    no footer on physical page 1 and, on each physical page `k ≥ 2`, stamps
    the separator/grey line `"ENSA Oujda - Rapport de PFE - <student>"` with
    the page number text `"Page k-1"` — visible numbering starts at 1 on the
    first page after the cover. -/
theorem footer_pagination_rule (name : String) (P k : Nat)
    (h2 : 2 ≤ k) (hP : k ≤ P) :
    ((showPages name P).save)[k - 1]? =
      some (some ("ENSA Oujda - Rapport de PFE - " ++ name,
                  "Page " ++ toString (k - 1))) ∧
    ((showPages name P).save)[0]? = some none := by
  obtain ⟨hs, -, hname⟩ := showPages_savedStates name P
  have hlen : (showPages name P).savedStates.length = P := by
    rw [hs]; simp
  constructor
  · rw [PDFCanvasState.save, List.getElem?_map, hs, List.getElem?_map,
      List.getElem?_range (by omega)]
    have hk1 : k - 1 + 1 = k := by omega
    simp only [Option.map_some', hk1, hlen, hname]
    rw [draw_footer, if_pos (by omega)]
  · rw [PDFCanvasState.save, List.getElem?_map, hs, List.getElem?_map,
      List.getElem?_range (by omega)]
    simp only [Option.map_some', hlen, hname]
    rw [draw_footer, if_neg (by omega)]

/-- Witness for C7: a 3-page document for the student name `"A. Benali"`,
    checked at physical page 2. -/
theorem footer_pagination_rule_witness :
    ((showPages "A. Benali" 3).save)[2 - 1]? =
      some (some ("ENSA Oujda - Rapport de PFE - A. Benali", "Page 1")) ∧
    ((showPages "A. Benali" 3).save)[0]? = some none :=
  footer_pagination_rule "A. Benali" 3 2 (by decide) (by decide)

/-- C6: a `POST /generate` body whose first required field (in the order
    `subject`, `student_name`, `supervisor`) fails the truthiness test is
    answered with the 400 body `{success: false, error: "Champ requis:
    <field>"}`; the response is the same for every environment, year, random
    draw and timestamp, so no pipeline stage (LLM call or PDF write) can
    influence or be reached by such a request. -/
theorem validation_rejection (env : LLMEnv) (data : JsonObj) (year rand : Nat)
    (timestamp field : String)
    (hfind : required_fields.find? (fun f => !pyTruthyOpt (pyLookup f data)) =
      some field) :
    generate env data year rand timestamp =
      .badRequest (.obj [("success", .bool false),
                         ("error", .str ("Champ requis: " ++ field))]) := by
  simp [generate, hfind]

/-- Witness for C6: a body carrying `subject` and `student_name` but no
    `supervisor` key is rejected naming `supervisor`. -/
theorem validation_rejection_witness :
    generate envAllFail
      [("subject", .str "S"), ("student_name", .str "N")] 2025 0 "t" =
      .badRequest (.obj [("success", .bool false),
                         ("error", .str "Champ requis: supervisor")]) :=
  validation_rejection envAllFail
    [("subject", .str "S"), ("student_name", .str "N")] 2025 0 "t"
    "supervisor" (by decide)

/-- C9: a required field that is present but falsy (empty string, `null`,
    ...) is rejected exactly like an absent field: the route returns the 400
    body naming the first required field that fails the truthiness test,
    independently of the environment — an empty-string `subject` never
    reaches the pipeline. -/
theorem present_but_empty_field_rejected (env : LLMEnv) (data : JsonObj)
    (year rand : Nat) (timestamp field : String) (v : JsonVal)
    (hmem : field ∈ required_fields)
    (hpresent : pyLookup field data = some v)
    (hfalsy : pyTruthy v = false) :
    ∃ field', required_fields.find? (fun f => !pyTruthyOpt (pyLookup f data)) =
        some field' ∧
      generate env data year rand timestamp =
        .badRequest (.obj [("success", .bool false),
                           ("error", .str ("Champ requis: " ++ field'))]) := by
  have hsome : (required_fields.find?
      (fun f => !pyTruthyOpt (pyLookup f data))).isSome := by
    rw [List.find?_isSome]
    exact ⟨field, hmem, by simp [hpresent, pyTruthyOpt, hfalsy]⟩
  obtain ⟨field', hfield'⟩ := Option.isSome_iff_exists.mp hsome
  exact ⟨field', hfield', by simp [generate, hfield']⟩

/-- Witness for C9: a body in which `subject` is present but the empty
    string is rejected naming `subject`. -/
theorem present_but_empty_field_rejected_witness :
    ∃ field', required_fields.find?
        (fun f => !pyTruthyOpt (pyLookup f
          [("subject", .str ""), ("student_name", .str "N"),
           ("supervisor", .str "P")])) = some field' ∧
      generate envAllFail
        [("subject", .str ""), ("student_name", .str "N"),
         ("supervisor", .str "P")] 2025 0 "t" =
        .badRequest (.obj [("success", .bool false),
                           ("error", .str ("Champ requis: " ++ field'))]) :=
  present_but_empty_field_rejected envAllFail
    [("subject", .str ""), ("student_name", .str "N"),
     ("supervisor", .str "P")] 2025 0 "t" "subject" (.str "")
    (by decide) rfl rfl

/-- C5: when the analyzer's JSON-mode result is a non-empty mapping without
    an `order_id` field, `analyze_project` appends a synthesized
    `order_id = ENSA-OUD-<year>-<3 digits>` whose numeric suffix lies in
    100–999, and returns the supplied mapping otherwise unchanged
    (`fields ++ [...]` leaves every existing entry, hence `department`,
    `filiere` and `structure`, in place, and first-match lookup on the
    result agrees with `fields` on every existing key). -/
theorem order_id_backfill (env : LLMEnv) (user_data : JsonObj)
    (year rand : Nat) (fields : JsonObj)
    (hres : genValue env (analysis_prompt user_data year)
      "Analyse Structure" true = .json (.obj fields))
    (hne : fields ≠ [])
    (hnoid : pyLookup "order_id" fields = none) :
    analyze_project env user_data year rand =
      fields ++ [("order_id", .str (mkOrderId year rand))] ∧
    mkOrderId year rand =
      "ENSA-OUD-" ++ toString year ++ "-" ++ toString (rand % 900 + 100) ∧
    100 ≤ rand % 900 + 100 ∧ rand % 900 + 100 ≤ 999 := by
  have h9 : rand % 900 < 900 := Nat.mod_lt _ (by norm_num)
  refine ⟨?_, ?_, by omega, by omega⟩
  · simp only [analyze_project, hres]
    simp [List.isEmpty_iff, hne, hnoid]
  · rw [mkOrderId, format03, if_neg (by omega), if_neg (by omega)]

/-- Witness for C5: a concrete run in which the model returns only a
    department and the random draw is 5. -/
theorem order_id_backfill_witness :
    analyze_project envDeptOnly [] 2025 5 =
      [("department", .str "Génie Informatique"),
       ("order_id", .str (mkOrderId 2025 5))] ∧
    mkOrderId 2025 5 =
      "ENSA-OUD-" ++ toString 2025 ++ "-" ++ toString (5 % 900 + 100) ∧
    100 ≤ 5 % 900 + 100 ∧ 5 % 900 + 100 ≤ 999 :=
  order_id_backfill envDeptOnly [] 2025 5
    [("department", .str "Génie Informatique")] rfl
    (List.cons_ne_nil _ _) rfl

/-- C2 counterexample: with a provider whose well-formed non-empty JSON
    result omits `structure` entirely, `analyze_project` passes the mapping
    through (only backfilling `order_id`), so the returned metadata has no
    3-entry structure list — refuting the claim that the structure is
    normalized to exactly 3 entries for every analyzer outcome. -/
theorem structure_invariant_counterexample :
    (metaStructure (analyze_project envDeptOnly [] 2025 0)).map List.length ≠
      some 3 := by
  decide

/-- C2 amended: the exactly-3-chapters guarantee holds in the defaulting
    branch — whenever the JSON-mode engine result is *not* a non-empty
    mapping (empty mapping after retry exhaustion, non-dict JSON, or the
    unreachable prose case), `analyze_project` returns the hard-coded
    default metadata, whose `structure` is the fixed 3-entry default.  A
    well-formed non-empty mapping is returned as supplied (see the
    counterexample), so the normalization does not apply to it. -/
theorem structure_default_normalized (env : LLMEnv) (user_data : JsonObj)
    (year rand : Nat)
    (h : ∀ fields, genValue env (analysis_prompt user_data year)
      "Analyse Structure" true = .json (.obj fields) → fields = []) :
    analyze_project env user_data year rand =
      default_metadata user_data year rand ∧
    metaStructure (analyze_project env user_data year rand) =
      some default_structure ∧
    default_structure.length = 3 := by
  have hmain : analyze_project env user_data year rand =
      default_metadata user_data year rand := by
    cases hg : genValue env (analysis_prompt user_data year)
        "Analyse Structure" true with
    | text s => simp [analyze_project, hg]
    | json v =>
      cases v with
      | str s => simp [analyze_project, hg]
      | num n => simp [analyze_project, hg]
      | bool b => simp [analyze_project, hg]
      | null => simp [analyze_project, hg]
      | arr xs => simp [analyze_project, hg]
      | obj fields =>
        have hf := h fields hg
        subst hf
        simp [analyze_project, hg]
  refine ⟨hmain, ?_, rfl⟩
  rw [hmain]
  rfl

/-- Witness for the amended C2, at an environment whose provider always
    raises (so the JSON result is the empty mapping). -/
theorem structure_default_normalized_witness :
    analyze_project envAllFail [] 2025 7 = default_metadata [] 2025 7 ∧
    metaStructure (analyze_project envAllFail [] 2025 7) =
      some default_structure ∧
    default_structure.length = 3 :=
  structure_default_normalized envAllFail [] 2025 7 (fun fields hf => by
    have h0 : genValue envAllFail (analysis_prompt [] 2025)
        "Analyse Structure" true = .json (.obj []) := rfl
    rw [h0] at hf
    injection hf with h1
    injection h1 with h2
    exact h2.symm)

/-- C8 counterexample: for the default 3-chapter structure the table of
    contents assembled by the renderer has 6 entries (introduction + one per
    chapter + conclusion + bibliography), not `2 + 3 = 5` as claimed. -/
theorem toc_entry_count_counterexample :
    (toc_items default_structure).map List.length ≠ Except.ok (2 + 3) := by
  intro h
  rw [show (toc_items default_structure).map List.length = Except.ok 6 from rfl]
    at h
  injection h with h'
  omega

/-- C8 amended: for the default 3-chapter structure the table of contents
    contains exactly `3 + 3 = 6` fixed-format entries — "I. Introduction
    Générale", one numbered line `<i+1>. Chapitre <i> : <title>` per chapter,
    "Conclusion Générale" and "Bibliographie & Webographie", in that order
    and with no computed page numbers (each is rendered bold via
    `<b>...</b>` in the `TOC` style by `create_professional_pdf`). -/
theorem toc_fixed_entries :
    toc_items default_structure = .ok
      ["I. Introduction Générale",
       "2. Chapitre 1 : Contexte général et état de l'art",
       "3. Chapitre 2 : Analyse et conception",
       "4. Chapitre 3 : Réalisation et résultats",
       "Conclusion Générale",
       "Bibliographie & Webographie"] ∧
    (toc_items default_structure).map List.length = .ok (3 + 3) := by
  constructor <;> rfl

-- Association-list helper lemmas shared by the orchestrator theorems.

/-- A key is absent from an association list exactly when `pyLookup` finds
    nothing. -/
theorem pyLookup_eq_none_iff {κ ν : Type} [DecidableEq κ] (k : κ)
    (l : List (κ × ν)) : pyLookup k l = none ↔ k ∉ l.map Prod.fst := by
  induction l with
  | nil => simp [pyLookup]
  | cons p rest ih =>
    obtain ⟨k', v⟩ := p
    by_cases h : k' = k
    · subst h; simp [pyLookup]
    · simp [pyLookup, h, ih, Ne.symm h]

/-- Assigning a fresh key appends the pair. -/
theorem pyDictSet_append {κ ν : Type} [DecidableEq κ] (d : List (κ × ν))
    (k : κ) (v : ν) (h : pyLookup k d = none) :
    pyDictSet d k v = d ++ [(k, v)] := by
  simp [pyDictSet, h]

/-- `filterMap` by an everywhere-defined partial function keeps the
    length. -/
theorem filterMap_length_eq {α β : Type} (f : α → Option β) (l : List α)
    (h : ∀ a ∈ l, (f a).isSome) : (l.filterMap f).length = l.length := by
  induction l with
  | nil => rfl
  | cons a rest ih =>
    obtain ⟨b, hb⟩ := Option.isSome_iff_exists.mp (h a (by simp))
    rw [List.filterMap_cons, hb]
    simp [ih (fun x hx => h x (by simp [hx]))]

/-- A well-formed chapter has an id. -/
theorem chapOk_id_isSome (c : JsonVal) (h : chapOk c = true) :
    (chapId c).isSome := by
  cases c with
  | obj f =>
    rw [chapOk, Bool.and_eq_true, Bool.and_eq_true] at h
    obtain ⟨⟨-, hid⟩, -⟩ := h
    cases hl : pyLookup "id" f with
    | none => rw [hl] at hid; simp at hid
    | some v =>
      cases v <;> rw [hl] at hid <;> simp at hid
      simp [chapId, hl]
  | str s => simp [chapOk] at h
  | num n => simp [chapOk] at h
  | bool b => simp [chapOk] at h
  | null => simp [chapOk] at h
  | arr xs => simp [chapOk] at h

/-- Reduction of `Except` bind on a success value. -/
theorem pyBind_ok {ε α β : Type} (a : α) (f : α → Except ε β) :
    (Except.ok a >>= f) = f a := rfl

/-- Reduction of `Except` bind on an error value. -/
theorem pyBind_error {ε α β : Type} (e : ε) (f : α → Except ε β) :
    ((Except.error e : Except ε α) >>= f) = Except.error e := rfl

/-- Reduction of `Except.map` on a success value. -/
theorem pyExceptMap_ok {ε α β : Type} (f : α → β) (a : α) :
    (Except.ok a : Except ε α).map f = .ok (f a) := rfl

/-- Reduction of `Except.map` on an error value. -/
theorem pyExceptMap_error {ε α β : Type} (f : α → β) (e : ε) :
    (Except.error e : Except ε α).map f = .error e := rfl

/-- The chapter loop of the orchestrator succeeds on well-formed chapters
    with fresh, pairwise-distinct ids, and appends exactly one entry per
    chapter, in order. -/
theorem chapterLoop_keys (env : LLMEnv) (pc : String) :
    ∀ (chaps : List JsonVal) (i : Nat) (acc : SectionMap),
    (∀ c ∈ chaps, chapOk c = true) →
    (chaps.filterMap chapId).Nodup →
    (∀ s ∈ chaps.filterMap chapId, PyKey.s s ∉ acc.map Prod.fst) →
    (chapterLoop env pc i chaps acc).map (fun m => m.map Prod.fst) =
      .ok (acc.map Prod.fst ++ (chaps.filterMap chapId).map PyKey.s) := by
  intro chaps
  induction chaps with
  | nil => intro i acc _ _ _; simp [chapterLoop, pyExceptMap_ok]
  | cons c rest ih =>
    intro i acc hwf hnodup hdisj
    have hc := hwf c (by simp)
    cases c with
    | str s => simp [chapOk] at hc
    | num n => simp [chapOk] at hc
    | bool b => simp [chapOk] at hc
    | null => simp [chapOk] at hc
    | arr xs => simp [chapOk] at hc
    | obj f =>
      rw [chapOk, Bool.and_eq_true, Bool.and_eq_true] at hc
      obtain ⟨⟨ht, hid⟩, hkw⟩ := hc
      obtain ⟨tv, htv⟩ := Option.isSome_iff_exists.mp ht
      have hid' : ∃ s, pyLookup "id" f = some (.str s) := by
        cases hl : pyLookup "id" f with
        | none => rw [hl] at hid; simp at hid
        | some v =>
          cases v <;> rw [hl] at hid <;> simp at hid
          exact ⟨_, rfl⟩
      obtain ⟨s, hs⟩ := hid'
      have hkw' : ∃ kw, keywords_str f = .ok kw := by
        cases hk : keywords_str f with
        | ok kw => exact ⟨kw, rfl⟩
        | error e => rw [hk] at hkw; simp at hkw
      obtain ⟨kw, hkw2⟩ := hkw'
      have hcid : chapId (.obj f) = some s := by simp [chapId, hs]
      have hfm : (JsonVal.obj f :: rest).filterMap chapId =
          s :: rest.filterMap chapId := by
        rw [List.filterMap_cons, hcid]
      rw [hfm] at hnodup hdisj
      have hsfresh : PyKey.s s ∉ acc.map Prod.fst := hdisj s (by simp)
      have hstep : chapterLoop env pc i (JsonVal.obj f :: rest) acc =
          chapterLoop env pc (i + 1) rest (pyDictSet acc (PyKey.s s)
            (genValue env (chapitre_prompt i tv pc kw)
              ("Chapitre " ++ toString i) false)) := by
        simp only [chapterLoop, asObj, getItem, htv, hs, hkw2, toKey,
          pyBind_ok]
      have hdisj' : ∀ (content : GenResult) (s' : String),
          s' ∈ rest.filterMap chapId →
          PyKey.s s' ∉ (acc ++ [(PyKey.s s, content)]).map Prod.fst := by
        intro content s' hs' hmem
        rw [List.map_append, List.mem_append] at hmem
        rcases hmem with hmem1 | hmem2
        · exact hdisj s' (by simp [hs']) hmem1
        · simp only [List.map_cons, List.map_nil, List.mem_singleton] at hmem2
          have heq : s' = s := by injection hmem2
          rw [heq] at hs'
          exact (List.nodup_cons.mp hnodup).1 hs'
      rw [hstep,
        pyDictSet_append _ _ _ ((pyLookup_eq_none_iff _ _).mpr hsfresh),
        ih (i + 1) _ (fun x hx => hwf x (by simp [hx]))
          (List.nodup_cons.mp hnodup).2 (fun s' => hdisj' _ s'), hfm]
      simp

/-- C3 amended: for any metadata whose `structure` is a list of well-formed
    chapter records (each an object with a `title`, a string `id` and
    joinable keywords) whose ids are pairwise distinct and distinct from the
    four fixed section keys, `generate_all_sections` succeeds — for *every*
    environment, i.e. regardless of any individual generation failure — and
    its SectionMap has exactly the `4 + N` keys `remerciements`,
    `introduction`, the chapter ids in order, `conclusion`, `biblio`.
    (Without the freshness/distinctness side conditions the key count can
    drop, and without the id/title fields the call raises: see the
    counterexample and C10.) -/
theorem section_completeness (env : LLMEnv) (user_data metadata : JsonObj)
    (chaps : List JsonVal)
    (hstruct : pyLookup "structure" metadata = some (.arr chaps))
    (hwf : ∀ c ∈ chaps, chapOk c = true)
    (hnodup : (chaps.filterMap chapId).Nodup)
    (hfresh : ∀ s ∈ chaps.filterMap chapId, s ∉ fixed_section_keys) :
    (generate_all_sections env user_data metadata).map
        (fun m => m.map Prod.fst) =
      .ok ([PyKey.s "remerciements", PyKey.s "introduction"] ++
        (chaps.filterMap chapId).map PyKey.s ++
        [PyKey.s "conclusion", PyKey.s "biblio"]) ∧
    (generate_all_sections env user_data metadata).map List.length =
      .ok (4 + chaps.length) := by
  have hnotfixed : ∀ s ∈ chaps.filterMap chapId,
      s ≠ "remerciements" ∧ s ≠ "introduction" ∧
      s ≠ "conclusion" ∧ s ≠ "biblio" := by
    intro s hs
    have h := hfresh s hs
    simp [fixed_section_keys] at h
    exact ⟨h.1, h.2.1, h.2.2.1, h.2.2.2⟩
  have hdisj0 : ∀ (v1 v2 : GenResult), ∀ s ∈ chaps.filterMap chapId,
      PyKey.s s ∉ (([(PyKey.s "remerciements", v1),
        (PyKey.s "introduction", v2)] : SectionMap)).map Prod.fst := by
    intro v1 v2 s hs hmem
    obtain ⟨h1, h2, -, -⟩ := hnotfixed s hs
    simp at hmem
    rcases hmem with h | h
    · exact h1 h
    · exact h2 h
  have hloop : ∀ (v1 v2 : GenResult), ∃ m,
      chapterLoop env (build_project_context user_data) 1 chaps
        [(PyKey.s "remerciements", v1), (PyKey.s "introduction", v2)] =
        .ok m ∧
      m.map Prod.fst = [PyKey.s "remerciements", PyKey.s "introduction"] ++
        (chaps.filterMap chapId).map PyKey.s := by
    intro v1 v2
    have h := chapterLoop_keys env (build_project_context user_data) chaps 1
      [(PyKey.s "remerciements", v1), (PyKey.s "introduction", v2)]
      hwf hnodup (hdisj0 v1 v2)
    cases hm : chapterLoop env (build_project_context user_data) 1 chaps
        [(PyKey.s "remerciements", v1), (PyKey.s "introduction", v2)] with
    | error e => rw [hm, pyExceptMap_error] at h; exact absurd h (by simp)
    | ok m =>
      rw [hm, pyExceptMap_ok] at h
      injection h with h'
      exact ⟨m, rfl, by simpa using h'⟩
  obtain ⟨m, hm, hkeys⟩ := hloop
    (genValue env (remerciements_prompt user_data) "Remerciements" false)
    (genValue env (intro_prompt (build_project_context user_data) metadata)
      "Introduction" false)
  have hidsets : ∀ t : String, t ∈ fixed_section_keys →
      PyKey.s t ∉ (chaps.filterMap chapId).map PyKey.s := by
    intro t ht hmem
    obtain ⟨s, hs, heq⟩ := List.mem_map.mp hmem
    have : s = t := by injection heq
    rw [this] at hs
    exact hfresh t hs ht
  have hconc : pyLookup (PyKey.s "conclusion") m = none := by
    rw [pyLookup_eq_none_iff, hkeys]
    intro hmem
    rcases List.mem_append.mp hmem with h | h
    · rcases List.mem_cons.mp h with h' | h'
      · simp at h'
      · rw [List.mem_singleton] at h'
        simp at h'
    · exact hidsets "conclusion" (by decide) h
  have hbib : pyLookup (PyKey.s "biblio")
      (m ++ [(PyKey.s "conclusion",
        genValue env (conclusion_prompt (build_project_context user_data))
          "Conclusion" false)]) = none := by
    rw [pyLookup_eq_none_iff, List.map_append, List.mem_append, hkeys]
    intro hmem
    rcases hmem with h | h
    · rcases List.mem_append.mp h with h' | h'
      · rcases List.mem_cons.mp h' with h'' | h''
        · simp at h''
        · rw [List.mem_singleton] at h''
          simp at h''
      · exact hidsets "biblio" (by decide) h'
    · simp at h
  have hacc : ∀ (a b : GenResult),
      pyDictSet (pyDictSet ([] : SectionMap) (PyKey.s "remerciements") a)
        (PyKey.s "introduction") b =
      [(PyKey.s "remerciements", a), (PyKey.s "introduction", b)] :=
    fun _ _ => rfl
  have hmain : generate_all_sections env user_data metadata =
      .ok ((m ++ [(PyKey.s "conclusion",
          genValue env (conclusion_prompt (build_project_context user_data))
            "Conclusion" false)]) ++
        [(PyKey.s "biblio",
          genValue env (biblio_prompt user_data metadata)
            "Bibliographie" false)]) := by
    simp only [generate_all_sections, hstruct, Option.getD_some, iterChapters,
      pyBind_ok, hacc, hm]
    rw [pyDictSet_append _ _ _ hconc, pyDictSet_append _ _ _ hbib]
  constructor
  · rw [hmain, pyExceptMap_ok]
    simp only [List.map_append, hkeys]
    simp
  · rw [hmain, pyExceptMap_ok]
    have hmlen := congrArg List.length hkeys
    simp only [List.length_map, List.length_append, List.length_cons,
      List.length_nil] at hmlen
    have hidlen : (chaps.filterMap chapId).length = chaps.length :=
      filterMap_length_eq chapId chaps (fun c hc => chapOk_id_isSome c (hwf c hc))
    simp only [Except.ok.injEq, List.length_append, List.length_cons,
      List.length_nil]
    omega

/-- Witness for the amended C3: the default 3-chapter structure with an
    always-failing environment still yields all `4 + 3` keys. -/
theorem section_completeness_witness :
    (generate_all_sections envAllFail []
        [("structure", .arr default_structure)]).map
        (fun m => m.map Prod.fst) =
      .ok ([PyKey.s "remerciements", PyKey.s "introduction"] ++
        (default_structure.filterMap chapId).map PyKey.s ++
        [PyKey.s "conclusion", PyKey.s "biblio"]) ∧
    (generate_all_sections envAllFail []
        [("structure", .arr default_structure)]).map List.length =
      .ok (4 + default_structure.length) :=
  section_completeness envAllFail [] [("structure", .arr default_structure)]
    default_structure rfl (by decide) (by decide) (by decide)

/-- C3 counterexample: a ProjectMetadata with `N = 2` chapters whose ids
    collide produces a SectionMap with 5 keys, not `4 + N = 6` — the second
    assignment to `sections[chap['id']]` overwrites the first, so the claim
    does not hold for every ProjectMetadata. -/
theorem section_completeness_counterexample :
    sectionCount (generate_all_sections envAllFail [] mdDup) = some 5 ∧
    sectionCount (generate_all_sections envAllFail [] mdDup) ≠ some (4 + 2) := by
  constructor <;> decide

/-- A successful `pyLookup` pinpoints a member pair. -/
theorem pyLookup_mem {κ ν : Type} [DecidableEq κ] {k : κ} {v : ν} :
    ∀ {l : List (κ × ν)}, pyLookup k l = some v → (k, v) ∈ l := by
  intro l
  induction l with
  | nil => intro h; simp [pyLookup] at h
  | cons p rest ih =>
    obtain ⟨k', v'⟩ := p
    intro h
    rw [pyLookup] at h
    by_cases hk : k' = k
    · rw [if_pos hk] at h
      injection h with h'
      subst hk; subst h'
      simp
    · rw [if_neg hk] at h
      exact List.mem_cons_of_mem _ (ih h)

/-- On an all-text SectionMap, `sections.get(key, dflt)` always yields a
    string. -/
theorem getSectionStr_ok (sections : SectionMap) (key : PyKey) (dflt : String)
    (h : sectionsAllText sections = true) :
    ∃ s, getSectionStr sections key dflt = .ok s := by
  cases hl : pyLookup key sections with
  | none => exact ⟨dflt, by simp [getSectionStr, hl]⟩
  | some g =>
    have hmem := pyLookup_mem hl
    have := List.all_eq_true.mp h _ hmem
    cases g with
    | text s => exact ⟨s, by simp [getSectionStr, hl]⟩
    | json v => simp at this

/-- A chapter with a missing `title` makes the TOC loop raise
    `KeyError('title')`, whatever well-titled chapters precede it. -/
theorem toc_items_loop_keyError :
    ∀ (pre : List JsonVal) (i : Nat) (post : List JsonVal) (f : JsonObj),
    (∀ c ∈ pre, chapTitledObj c = true) →
    pyLookup "title" f = none →
    toc_items_loop i (pre ++ JsonVal.obj f :: post) =
      .error (.keyError "title") := by
  intro pre
  induction pre with
  | nil =>
    intro i post f _ hnotitle
    simp [toc_items_loop, asObj, getItem, hnotitle, pyBind_ok, pyBind_error]
  | cons c rest ih =>
    intro i post f hpre hnotitle
    have hc := hpre c (by simp)
    cases c with
    | str s => simp [chapTitledObj] at hc
    | num n => simp [chapTitledObj] at hc
    | bool b => simp [chapTitledObj] at hc
    | null => simp [chapTitledObj] at hc
    | arr xs => simp [chapTitledObj] at hc
    | obj g =>
      rw [chapTitledObj] at hc
      obtain ⟨tv, htv⟩ := Option.isSome_iff_exists.mp hc
      rw [List.cons_append]
      simp only [toc_items_loop, asObj, getItem, htv, pyBind_ok,
        ih (i + 1) post f (fun x hx => hpre x (by simp [hx])) hnotitle,
        pyBind_error]

/-- One well-formed chapter at the head of the orchestrator loop is consumed
    and the loop continues on the tail. -/
theorem chapterLoop_cons_ok (env : LLMEnv) (pc : String) (i : Nat)
    (acc : SectionMap) (c : JsonVal) (rest : List JsonVal)
    (h : chapOk c = true) :
    ∃ acc', chapterLoop env pc i (c :: rest) acc =
      chapterLoop env pc (i + 1) rest acc' := by
  cases c with
  | str s => simp [chapOk] at h
  | num n => simp [chapOk] at h
  | bool b => simp [chapOk] at h
  | null => simp [chapOk] at h
  | arr xs => simp [chapOk] at h
  | obj f =>
    rw [chapOk, Bool.and_eq_true, Bool.and_eq_true] at h
    obtain ⟨⟨ht, hid⟩, hkw⟩ := h
    obtain ⟨tv, htv⟩ := Option.isSome_iff_exists.mp ht
    have hid' : ∃ s, pyLookup "id" f = some (.str s) := by
      cases hl : pyLookup "id" f with
      | none => rw [hl] at hid; simp at hid
      | some v =>
        cases v <;> rw [hl] at hid <;> simp at hid
        exact ⟨_, rfl⟩
    obtain ⟨s, hs⟩ := hid'
    have hkw' : ∃ kw, keywords_str f = .ok kw := by
      cases hk : keywords_str f with
      | ok kw => exact ⟨kw, rfl⟩
      | error e => rw [hk] at hkw; simp at hkw
    obtain ⟨kw, hkw2⟩ := hkw'
    refine ⟨pyDictSet acc (PyKey.s s)
      (genValue env (chapitre_prompt i tv pc kw)
        ("Chapitre " ++ toString i) false), ?_⟩
    simp only [chapterLoop, asObj, getItem, htv, hs, hkw2, toKey, pyBind_ok]

/-- A chapter lacking `title` (or lacking `id`, with readable title and
    keywords) makes the orchestrator chapter loop raise the corresponding
    `KeyError`, whatever well-formed chapters precede it. -/
theorem chapterLoop_malformed (env : LLMEnv) (pc : String) :
    ∀ (pre : List JsonVal) (i : Nat) (acc : SectionMap)
      (post : List JsonVal) (f : JsonObj),
    (∀ c ∈ pre, chapOk c = true) →
    (pyLookup "title" f = none ∨
      ((pyLookup "title" f).isSome ∧ (∃ kw, keywords_str f = .ok kw) ∧
        pyLookup "id" f = none)) →
    ∃ k, (k = "title" ∨ k = "id") ∧
      chapterLoop env pc i (pre ++ JsonVal.obj f :: post) acc =
        .error (.keyError k) := by
  intro pre
  induction pre with
  | nil =>
    intro i acc post f _ hmal
    rcases hmal with hnotitle | ⟨ht, ⟨kw, hkw⟩, hnoid⟩
    · refine ⟨"title", Or.inl rfl, ?_⟩
      simp [chapterLoop, asObj, getItem, hnotitle, pyBind_ok, pyBind_error]
    · obtain ⟨tv, htv⟩ := Option.isSome_iff_exists.mp ht
      refine ⟨"id", Or.inr rfl, ?_⟩
      simp [chapterLoop, asObj, getItem, htv, hkw, hnoid, pyBind_ok,
        pyBind_error]
  | cons c rest ih =>
    intro i acc post f hpre hmal
    obtain ⟨acc', hstep⟩ := chapterLoop_cons_ok env pc i acc c
      (rest ++ JsonVal.obj f :: post) (hpre c (by simp))
    obtain ⟨k, hk, herr⟩ := ih (i + 1) acc' post f
      (fun x hx => hpre x (by simp [hx])) hmal
    rw [List.cons_append]
    exact ⟨k, hk, by rw [hstep, herr]⟩

/-- C10: a structure entry lacking `id` or `title` is not absorbed as a
    per-section failure.  (1) The orchestrator raises `KeyError('title')`
    or `KeyError('id')` (the title is read for the chapter prompt before
    the engine call, the id afterwards when storing the result), whatever
    well-formed chapters precede the malformed one.  (2) Any `PyErr` escaping
    `generate_all_sections` reaches the route's catch-all and yields the
    HTTP 500 body `{success: false, error: str(e)}`.  (3)
    `create_professional_pdf` likewise raises `KeyError('title')` for a
    chapter without a title — its first such read is the TOC assembly
    (lines 838–839), upstream of the chapter-rendering loop that reads
    `chap['title']` again at line 867. -/
theorem malformed_structure_aborts :
    (∀ (env : LLMEnv) (user_data metadata : JsonObj)
       (pre post : List JsonVal) (f : JsonObj),
       pyLookup "structure" metadata =
         some (.arr (pre ++ JsonVal.obj f :: post)) →
       (∀ c ∈ pre, chapOk c = true) →
       (pyLookup "title" f = none ∨
         ((pyLookup "title" f).isSome ∧ (∃ kw, keywords_str f = .ok kw) ∧
           pyLookup "id" f = none)) →
       ∃ k, (k = "title" ∨ k = "id") ∧
         generate_all_sections env user_data metadata =
           .error (.keyError k)) ∧
    (∀ (env : LLMEnv) (data : JsonObj) (year rand : Nat) (timestamp : String)
       (e : PyErr),
       required_fields.find? (fun fl => !pyTruthyOpt (pyLookup fl data)) =
         none →
       generate_all_sections env data (analyze_project env data year rand) =
         .error e →
       generate env data year rand timestamp =
         .serverError (.obj [("success", .bool false),
                             ("error", .str (pyErrMsg e))])) ∧
    (∀ (user_data : JsonObj) (sections : SectionMap) (metadata : JsonObj)
       (timestamp : String) (year : Nat) (pre post : List JsonVal)
       (f : JsonObj) (subj : String),
       pyLookup "subject" user_data = some (.str subj) →
       sectionsAllText sections = true →
       pyLookup "structure" metadata =
         some (.arr (pre ++ JsonVal.obj f :: post)) →
       (∀ c ∈ pre, chapTitledObj c = true) →
       pyLookup "title" f = none →
       create_professional_pdf user_data sections metadata timestamp year =
         .error (.keyError "title")) := by
  refine ⟨?_, ?_, ?_⟩
  · intro env u md pre post f hstruct hpre hmal
    obtain ⟨k, hk, herr⟩ := chapterLoop_malformed env (build_project_context u)
      pre 1 (pyDictSet (pyDictSet [] (PyKey.s "remerciements")
        (genValue env (remerciements_prompt u) "Remerciements" false))
        (PyKey.s "introduction")
        (genValue env (intro_prompt (build_project_context u) md)
          "Introduction" false)) post f hpre hmal
    refine ⟨k, hk, ?_⟩
    simp only [generate_all_sections, hstruct, Option.getD_some, iterChapters,
      pyBind_ok, herr, pyBind_error]
  · intro env data year rand timestamp e hvalid herr
    simp only [generate, hvalid, herr]
  · intro u sections md ts yr pre post f subj hsubj hsec hstruct hpre hnotitle
    obtain ⟨rem, hrem⟩ := getSectionStr_ok sections (.s "remerciements") "" hsec
    have htoc := toc_items_loop_keyError pre 1 post f hpre hnotitle
    simp only [create_professional_pdf, getItem, hsubj, pyUpperVal, pyBind_ok,
      hrem, hstruct, Option.getD_some, iterChapters, toc_items, htoc,
      pyBind_error]

/-- Witness for C10, one concrete run per conjunct: a chapter without `id`
    aborts the orchestrator; a validated request whose analyzer produces
    that structure is answered with the 500 body naming `KeyError('id')`;
    a chapter without `title` aborts the PDF renderer. -/
theorem malformed_structure_aborts_witness :
    (∃ k, (k = "title" ∨ k = "id") ∧
       generate_all_sections envAllFail []
         [("structure", .arr [.obj [("title", .str "T")]])] =
         .error (.keyError k)) ∧
    generate envStructBad
      [("subject", .str "S"), ("student_name", .str "N"),
       ("supervisor", .str "P")] 2025 0 "t" =
      .serverError (.obj [("success", .bool false),
                          ("error", .str (pyErrMsg (.keyError "id")))]) ∧
    create_professional_pdf [("subject", .str "S")] []
      [("structure", .arr [.obj [("id", .str "c1")]])] "ts" 2025 =
      .error (.keyError "title") :=
  ⟨malformed_structure_aborts.1 envAllFail [] _ [] [] [("title", .str "T")]
      rfl (by simp) (Or.inr ⟨rfl, ⟨"concepts techniques", rfl⟩, rfl⟩),
   malformed_structure_aborts.2.1 envStructBad _ 2025 0 "t" (.keyError "id")
      (by decide) rfl,
   malformed_structure_aborts.2.2 [("subject", .str "S")] [] _ "ts" 2025
      [] [] [("id", .str "c1")] "S" rfl rfl rfl (by simp) rfl⟩

/-- C4 counterexample: `clean_text` is not idempotent.  On `"- - x"` the
    bullet pass removes the first `"- "` and resumes scanning mid-line, so
    the second `"- "` survives (`re.sub` only matches at line starts of the
    original string); the output `"- x"` has a line-leading bullet again,
    which a second application removes. -/
theorem clean_text_not_idempotent :
    clean_text (clean_text "- - x") ≠ clean_text "- - x" ∧
    clean_text "- - x" = "- x" ∧
    clean_text (clean_text "- - x") = "x" := by
  refine ⟨by decide, by decide, by decide⟩

-- Run-counting infrastructure for the whitespace-collapsing passes.

/-- A smaller starting count cannot create a run violation. -/
theorem noRunGo_mono (ch : Char) (t : Nat) :
    ∀ (l : List Char) (cnt cnt' : Nat), cnt' ≤ cnt →
    noRunGo ch t cnt l = true → noRunGo ch t cnt' l = true := by
  intro l
  induction l with
  | nil => intro cnt cnt' _ _; rfl
  | cons c cs ih =>
    intro cnt cnt' hle h
    rw [noRunGo] at h ⊢
    by_cases hc : c = ch
    · rw [if_pos hc] at h ⊢
      by_cases ht : t ≤ cnt + 1
      · rw [if_pos ht] at h; exact absurd h (by simp)
      · rw [if_neg ht] at h
        rw [if_neg (by omega)]
        exact ih (cnt + 1) (cnt' + 1) (by omega) h
    · rw [if_neg hc] at h ⊢
      exact h

/-- Stepping `noRunGo` over a non-`ch` head resets the count. -/
theorem noRunGo_cons_ne (ch : Char) (t : Nat) (d : Char) (ds : List Char)
    (cnt : Nat) (hd : ¬ d = ch) :
    noRunGo ch t cnt (d :: ds) = noRunGo ch t 0 ds := by
  rw [noRunGo, if_neg hd]

/-- Dropping the head preserves run-freeness. -/
theorem noRunGo_tail (ch : Char) (t : Nat) (c : Char) (cs : List Char)
    (cnt : Nat) (h : noRunGo ch t cnt (c :: cs) = true) :
    noRunGo ch t 0 cs = true := by
  rw [noRunGo] at h
  by_cases hc : c = ch
  · rw [if_pos hc] at h
    by_cases ht : t ≤ cnt + 1
    · rw [if_pos ht] at h; exact absurd h (by simp)
    · rw [if_neg ht] at h
      exact noRunGo_mono ch t cs (cnt + 1) 0 (by omega) h
  · rwa [if_neg hc] at h

/-- Removing a left context preserves run-freeness. -/
theorem noRunGo_append_left (ch : Char) (t : Nat) :
    ∀ (x r : List Char), noRunGo ch t 0 (x ++ r) = true →
    noRunGo ch t 0 r = true := by
  intro x
  induction x with
  | nil => intro r h; exact h
  | cons c cs ih =>
    intro r h
    exact ih r (noRunGo_tail ch t c (cs ++ r) 0 h)

/-- A prefix of a run-free list is run-free. -/
theorem noRunGo_append_right (ch : Char) (t : Nat) :
    ∀ (x r : List Char) (cnt : Nat), noRunGo ch t cnt (x ++ r) = true →
    noRunGo ch t cnt x = true := by
  intro x
  induction x with
  | nil => intro r cnt _; rfl
  | cons c cs ih =>
    intro r cnt h
    rw [List.cons_append, noRunGo] at h
    rw [noRunGo]
    by_cases hc : c = ch
    · rw [if_pos hc] at h ⊢
      by_cases ht : t ≤ cnt + 1
      · rw [if_pos ht] at h; exact absurd h (by simp)
      · rw [if_neg ht] at h ⊢
        exact ih r (cnt + 1) h
    · rw [if_neg hc] at h ⊢
      exact ih r 0 h

/-- Stepping over a whole run of `ch` that stays below the threshold. -/
theorem noRunGo_run_step (ch : Char) (t : Nat) :
    ∀ (tw r : List Char) (cnt : Nat), (∀ c ∈ tw, c = ch) →
    cnt + 1 + tw.length < t →
    noRunGo ch t cnt (ch :: (tw ++ r)) = noRunGo ch t (cnt + 1 + tw.length) r := by
  intro tw
  induction tw with
  | nil =>
    intro r cnt _ hlt
    simp only [List.length_nil] at hlt
    rw [List.nil_append, noRunGo, if_pos rfl, if_neg (by omega)]
    simp
  | cons d ds ih =>
    intro r cnt hall hlt
    simp only [List.length_cons] at hlt
    have hd : d = ch := hall d (by simp)
    rw [noRunGo, if_pos rfl, if_neg (by omega), List.cons_append]
    subst hd
    rw [ih r (cnt + 1) (fun c hc => hall c (by simp [hc])) (by omega)]
    simp only [List.length_cons]
    congr 1
    omega

/-- A run of `ch` reaching the threshold refutes run-freeness. -/
theorem noRunGo_run_overflow (ch : Char) (t : Nat) :
    ∀ (tw r : List Char) (cnt : Nat), (∀ c ∈ tw, c = ch) →
    t ≤ cnt + 1 + tw.length →
    noRunGo ch t cnt (ch :: (tw ++ r)) = false := by
  intro tw
  induction tw with
  | nil =>
    intro r cnt _ hge
    simp only [List.length_nil] at hge
    rw [List.nil_append, noRunGo, if_pos rfl, if_pos (by omega)]
  | cons d ds ih =>
    intro r cnt hall hge
    simp only [List.length_cons] at hge
    by_cases ht : t ≤ cnt + 1
    · rw [noRunGo, if_pos rfl, if_pos ht]
    · have hd : d = ch := hall d (by simp)
      rw [noRunGo, if_pos rfl, if_neg ht, List.cons_append]
      subst hd
      exact ih r (cnt + 1) (fun c hc => hall c (by simp [hc])) (by omega)

/-- Dropping the length of the taken prefix is `dropWhile`. -/
theorem drop_takeWhile_length (p : Char → Bool) :
    ∀ l : List Char, l.drop (l.takeWhile p).length = l.dropWhile p := by
  intro l
  induction l with
  | nil => rfl
  | cons c cs ih =>
    by_cases h : p c
    · simp [List.takeWhile_cons, List.dropWhile_cons, h, ih]
    · simp [List.takeWhile_cons, List.dropWhile_cons, h]

/-- The head surviving `dropWhile` fails the predicate. -/
theorem dropWhile_head_false (p : Char → Bool) :
    ∀ (l : List Char) (c : Char) (cs : List Char),
    l.dropWhile p = c :: cs → p c = false := by
  intro l
  induction l with
  | nil => intro c cs h; simp at h
  | cons d ds ih =>
    intro c cs h
    by_cases hd : p d
    · rw [List.dropWhile_cons, if_pos hd] at h
      exact ih c cs h
    · rw [List.dropWhile_cons, if_neg hd] at h
      injection h with h1 _
      rw [← h1]
      exact Bool.of_not_eq_true hd

/-- Crossing a non-empty block of non-`ch` characters resets the run
    count. -/
theorem noRunGo_append_ne (ch : Char) (t : Nat) :
    ∀ (x Y : List Char) (cnt : Nat), (∀ c ∈ x, ¬ c = ch) → x ≠ [] →
    noRunGo ch t cnt (x ++ Y) = noRunGo ch t 0 Y := by
  intro x
  induction x with
  | nil => intro Y cnt _ hne; exact absurd rfl hne
  | cons a as ih =>
    intro Y cnt hall _
    rw [List.cons_append, noRunGo_cons_ne ch t a (as ++ Y) cnt (hall a (by simp))]
    cases as with
    | nil => simp
    | cons b bs =>
      exact ih Y 0 (fun c hc => hall c (by simp [hc])) (by simp)

/-- Peeling one copy off a replicated block. -/
theorem replicate_one_add (k : Nat) (a : Char) :
    List.replicate (1 + k) a = a :: List.replicate k a := by
  rw [Nat.add_comm]
  rfl

/-- The collapsing pass keeps the head character (it always emits at least
    one copy of a collapsed run). -/
theorem collapseRunsGo_head (ch : Char) (t keep : Nat) (hk : 1 ≤ keep) :
    ∀ (fuel : Nat) (c : Char) (cs : List Char),
    ∃ out, collapseRunsGo ch t keep fuel (c :: cs) = c :: out := by
  intro fuel c cs
  cases fuel with
  | zero => exact ⟨cs, rfl⟩
  | succ n =>
    by_cases hc : c = ch
    · rw [hc]
      rw [collapseRunsGo, if_pos rfl]
      by_cases ht : t ≤ 1 + (cs.takeWhile (fun d => d = ch)).length
      · rw [if_pos ht]
        cases keep with
        | zero => omega
        | succ k => exact ⟨_, by rw [List.replicate_succ, List.cons_append]⟩
      · rw [if_neg ht]
        exact ⟨_, by rw [replicate_one_add, List.cons_append]⟩
    · rw [collapseRunsGo, if_neg hc]
      exact ⟨_, rfl⟩

/-- A run-free list passes through the collapsing pass unchanged. -/
theorem collapseRunsGo_id (ch : Char) (t keep : Nat) :
    ∀ (fuel : Nat) (l : List Char), noRunB ch t l = true →
    collapseRunsGo ch t keep fuel l = l := by
  intro fuel
  induction fuel with
  | zero => intro l _; rfl
  | succ n ih =>
    intro l h
    cases l with
    | nil => rfl
    | cons c cs =>
      by_cases hc : c = ch
      · rw [hc] at h ⊢
        have hsplit : cs.takeWhile (fun d => d = ch) ++
            cs.dropWhile (fun d => d = ch) = cs :=
          List.takeWhile_append_dropWhile _ _
        have htw : ∀ c' ∈ cs.takeWhile (fun d => d = ch), c' = ch := by
          intro c' hc'
          have := List.mem_takeWhile_imp hc'
          exact of_decide_eq_true this
        have hcs : noRunGo ch t 0 (ch :: (cs.takeWhile (fun d => d = ch) ++
            cs.dropWhile (fun d => d = ch))) = true := by
          rw [hsplit]; exact h
        by_cases ht : t ≤ 1 + (cs.takeWhile (fun d => d = ch)).length
        · exfalso
          rw [noRunGo_run_overflow ch t _ _ 0 htw (by omega)] at hcs
          exact Bool.noConfusion hcs
        · rw [collapseRunsGo, if_pos rfl, if_neg ht]
          rw [noRunGo_run_step ch t _ _ 0 htw (by omega)] at hcs
          have hrest : noRunGo ch t 0
              (cs.dropWhile (fun d => d = ch)) = true :=
            noRunGo_mono ch t _ _ 0 (by omega) hcs
          rw [drop_takeWhile_length]
          rw [ih (cs.dropWhile (fun d => d = ch)) hrest]
          have htw_rep : cs.takeWhile (fun d => d = ch) =
              List.replicate (cs.takeWhile (fun d => d = ch)).length ch := by
            exact List.eq_replicate_length.mpr htw
          calc List.replicate (1 + (cs.takeWhile (fun d => d = ch)).length) ch ++
                cs.dropWhile (fun d => d = ch)
              = ch :: (List.replicate (cs.takeWhile (fun d => d = ch)).length ch ++
                cs.dropWhile (fun d => d = ch)) := by
                rw [replicate_one_add, List.cons_append]
            _ = ch :: cs := by rw [← htw_rep, hsplit]
      · rw [collapseRunsGo, if_neg hc]
        rw [ih cs (noRunGo_tail ch t c cs 0 h)]

/-- A short replicated block followed by run-free text starting with a
    different character is run-free. -/
theorem noRun_replicate_append (ch : Char) (t : Nat) (K : Nat)
    (Y : List Char) (hK : 1 ≤ K) (hKt : K < t) (hY : noRunB ch t Y = true)
    (hshape : Y = [] ∨ ∃ d ds, Y = d :: ds ∧ ¬ d = ch) :
    noRunB ch t (List.replicate K ch ++ Y) = true := by
  obtain ⟨K', rfl⟩ : ∃ K', K = 1 + K' := ⟨K - 1, by omega⟩
  rw [replicate_one_add, List.cons_append, noRunB]
  rw [noRunGo_run_step ch t (List.replicate K' ch) Y 0
    (fun c hc => List.eq_of_mem_replicate hc)
    (by simp only [List.length_replicate]; omega)]
  rcases hshape with rfl | ⟨d, ds, rfl, hd⟩
  · rfl
  · rw [noRunGo_cons_ne ch t d ds _ hd]
    rw [noRunB, noRunGo_cons_ne ch t d ds 0 hd] at hY
    exact hY

/-- `collapseRunsGo` on `[]` is `[]` for any fuel. -/
theorem collapseRunsGo_nil (ch : Char) (t keep : Nat) :
    ∀ fuel, collapseRunsGo ch t keep fuel [] = [] := by
  intro fuel
  cases fuel <;> rfl

/-- With enough fuel, the output of the collapsing pass has no run of `ch`
    of length `t` (for `1 ≤ keep < t`). -/
theorem collapseRunsGo_noRun (ch : Char) (t keep : Nat) (hk : 1 ≤ keep)
    (hkt : keep < t) :
    ∀ (fuel : Nat) (l : List Char), l.length ≤ fuel →
    noRunB ch t (collapseRunsGo ch t keep fuel l) = true := by
  intro fuel
  induction fuel with
  | zero =>
    intro l hl
    have hnil : l = [] := List.eq_nil_of_length_eq_zero (by omega)
    subst hnil; rfl
  | succ n ih =>
    intro l hl
    cases l with
    | nil => rfl
    | cons c cs =>
      simp only [List.length_cons] at hl
      by_cases hc : c = ch
      · rw [hc]
        rw [collapseRunsGo, if_pos rfl, drop_takeWhile_length]
        have hrest_len : (cs.dropWhile (fun d => d = ch)).length ≤ n := by
          have hsuf := List.dropWhile_suffix (l := cs) (fun d => d = ch)
          have := hsuf.length_le
          omega
        have hout := ih _ hrest_len
        have hshape : collapseRunsGo ch t keep n (cs.dropWhile (fun d => d = ch)) = [] ∨
            ∃ d ds, collapseRunsGo ch t keep n (cs.dropWhile (fun d => d = ch)) =
              d :: ds ∧ ¬ d = ch := by
          cases hdw : cs.dropWhile (fun d => d = ch) with
          | nil => exact Or.inl (collapseRunsGo_nil ch t keep n)
          | cons d ds =>
            obtain ⟨out, hout'⟩ := collapseRunsGo_head ch t keep hk n d ds
            refine Or.inr ⟨d, out, hout', ?_⟩
            have := dropWhile_head_false (fun d => d = ch) cs d ds hdw
            intro hdd
            rw [hdd] at this
            simp at this
        by_cases ht : t ≤ 1 + (cs.takeWhile (fun d => d = ch)).length
        · rw [if_pos ht]
          exact noRun_replicate_append ch t keep _ hk hkt hout hshape
        · rw [if_neg ht]
          exact noRun_replicate_append ch t _ _ (by omega) (by omega) hout hshape
      · rw [collapseRunsGo, if_neg hc, noRunB, noRunGo_cons_ne ch t c _ 0 hc]
        exact ih cs (by omega)

/-- Collapsing runs of a *different* character cannot create a run of
    `ch`: each collapsed block still keeps at least one separating
    character. -/
theorem collapseRuns_preserves_noRun (ch ch' : Char) (hne : ch' ≠ ch)
    (t t' keep' : Nat) (hk : 1 ≤ keep') :
    ∀ (fuel : Nat) (l : List Char) (cnt : Nat),
    noRunGo ch t cnt l = true →
    noRunGo ch t cnt (collapseRunsGo ch' t' keep' fuel l) = true := by
  intro fuel
  induction fuel with
  | zero => intro l cnt h; exact h
  | succ n ih =>
    intro l cnt h
    cases l with
    | nil => exact h
    | cons c cs =>
      by_cases hc : c = ch'
      · rw [hc] at h ⊢
        rw [collapseRunsGo, if_pos rfl, drop_takeWhile_length]
        have h0 : noRunGo ch t 0 cs = true := by
          rw [noRunGo_cons_ne ch t ch' cs cnt hne] at h; exact h
        have hrest : noRunGo ch t 0 (cs.dropWhile (fun d => d = ch')) = true := by
          have hsplit := List.takeWhile_append_dropWhile (fun d => d = ch') cs
          exact noRunGo_append_left ch t (cs.takeWhile (fun d => d = ch')) _
            (by rw [hsplit]; exact h0)
        have hrep : ∀ K : Nat, 1 ≤ K →
            noRunGo ch t cnt (List.replicate K ch' ++
              collapseRunsGo ch' t' keep' n (cs.dropWhile (fun d => d = ch'))) =
              true := by
          intro K hK
          rw [noRunGo_append_ne ch t (List.replicate K ch') _ cnt
            (fun x hx => by rw [List.eq_of_mem_replicate hx]; exact hne)
            (List.ne_nil_of_length_pos (by simp only [List.length_replicate]; omega))]
          exact ih _ 0 hrest
        by_cases ht' : t' ≤ 1 + (cs.takeWhile (fun d => d = ch')).length
        · rw [if_pos ht']
          exact hrep keep' hk
        · rw [if_neg ht']
          exact hrep _ (by omega)
      · by_cases hch : c = ch
        · rw [hch] at h hc ⊢
          rw [collapseRunsGo, if_neg hc]
          rw [noRunGo, if_pos rfl] at h ⊢
          by_cases ht : t ≤ cnt + 1
          · rw [if_pos ht] at h; exact absurd h (by simp)
          · rw [if_neg ht] at h ⊢
            exact ih cs (cnt + 1) h
        · rw [collapseRunsGo, if_neg hc]
          rw [noRunGo_cons_ne ch t c _ cnt hch] at h ⊢
          exact ih cs 0 h

/-- Every output character of the collapsing pass is an input character or
    `ch` itself. -/
theorem collapseRunsGo_chars (ch : Char) (t keep : Nat) :
    ∀ (fuel : Nat) (l : List Char) (c' : Char),
    c' ∈ collapseRunsGo ch t keep fuel l → c' ∈ l ∨ c' = ch := by
  intro fuel
  induction fuel with
  | zero => intro l c' h; exact Or.inl h
  | succ n ih =>
    intro l c' h
    cases l with
    | nil => exact Or.inl h
    | cons c cs =>
      by_cases hc : c = ch
      · rw [hc] at h ⊢
        rw [collapseRunsGo, if_pos rfl] at h
        have hmem : ∀ K : Nat,
            c' ∈ List.replicate K ch ++ collapseRunsGo ch t keep n
              (cs.drop (cs.takeWhile (fun d => d = ch)).length) →
            c' ∈ ch :: cs ∨ c' = ch := by
          intro K hK
          rcases List.mem_append.mp hK with hrep | hrec
          · exact Or.inr (List.eq_of_mem_replicate hrep)
          · rcases ih _ c' hrec with hin | hch
            · exact Or.inl (List.mem_cons_of_mem _ (List.drop_subset _ _ hin))
            · exact Or.inr hch
        by_cases ht : t ≤ 1 + (cs.takeWhile (fun d => d = ch)).length
        · rw [if_pos ht] at h; exact hmem _ h
        · rw [if_neg ht] at h; exact hmem _ h
      · rw [collapseRunsGo, if_neg hc] at h
        rcases List.mem_cons.mp h with rfl | hmem
        · exact Or.inl (by simp)
        · rcases ih cs c' hmem with hin | hch
          · exact Or.inl (List.mem_cons_of_mem _ hin)
          · exact Or.inr hch

/-- If no suffix of the text matches, a multiline-anchored substitution pass
    is the identity. -/
theorem lineMarkerGo_eq_self (matchFn : List Char → Option (Char × List Char)) :
    ∀ (fuel : Nat) (b : Bool) (l : List Char),
    (∀ l', l' <:+ l → matchFn l' = none) →
    lineMarkerGo matchFn fuel b l = l := by
  intro fuel
  induction fuel with
  | zero => intro b l _; rfl
  | succ n ih =>
    intro b l h
    cases l with
    | nil => rfl
    | cons c cs =>
      have h0 : matchFn (c :: cs) = none := h _ (List.suffix_refl _)
      have hcs : ∀ l', l' <:+ cs → matchFn l' = none :=
        fun l' hl' => h l' (hl'.trans (List.suffix_cons c cs))
      cases b <;> simp only [lineMarkerGo, h0, if_true, if_false,
        Bool.false_eq_true, Bool.true_eq_false] <;>
        exact congrArg (List.cons c) (ih _ cs hcs)

/-- The bullet pattern `[\s]*[-•*]\s+` cannot match bullet-free text. -/
theorem bulletMatch_none (l : List Char)
    (h : ∀ c ∈ l, isBulletChar c = false) : bulletMatch l = none := by
  simp only [bulletMatch]
  cases hd : l.drop (l.takeWhile pyIsSpace).length with
  | nil => rfl
  | cons c rest =>
    have hc : c ∈ l :=
      List.drop_subset _ _ (by rw [hd]; exact List.mem_cons_self c rest)
    simp [h c hc]

/-- The numbered-list pattern `[\s]*\d+\.\s+` cannot match digit-free
    text. -/
theorem numMatch_none (l : List Char)
    (h : ∀ c ∈ l, c.isDigit = false) : numMatch l = none := by
  simp only [numMatch]
  cases hd : l.drop (l.takeWhile pyIsSpace).length with
  | nil => simp
  | cons c rest =>
    have hc : c ∈ l :=
      List.drop_subset _ _ (by rw [hd]; exact List.mem_cons_self c rest)
    rw [List.takeWhile_cons, h c hc]
    simp

/-- A delimited-pattern pass is the identity when the opening delimiter's
    first character never occurs. -/
theorem subDelimGo_id (a : Char) (opn' close : List Char)
    (minOne noNl keepGroup : Bool) :
    ∀ (fuel : Nat) (l : List Char), (∀ c ∈ l, ¬ c = a) →
    subDelimGo (a :: opn') close minOne noNl keepGroup fuel l = l := by
  intro fuel
  induction fuel with
  | zero => intro l _; rfl
  | succ n ih =>
    intro l h
    cases l with
    | nil => rfl
    | cons c cs =>
      have hne : ¬ a = c := fun heq => h c (by simp) heq.symm
      have hpref : (a :: opn').isPrefixOf (c :: cs) = false := by
        simp [List.isPrefixOf, hne]
      rw [subDelimGo, hpref]
      simp only [Bool.false_eq_true, if_false]
      exact congrArg (List.cons c) (ih cs (fun x hx => h x (by simp [hx])))

/-- Removing trailing whitespace yields a prefix. -/
theorem dropTrailingSpaces_prefixOf (l : List Char) :
    dropTrailingSpaces l <+: l := by
  rw [dropTrailingSpaces]
  exact List.reverse_suffix.mp
    (by rw [List.reverse_reverse]; exact List.dropWhile_suffix pyIsSpace)

/-- Run-freeness restricts to prefixes. -/
theorem noRunB_prefixClosed (ch : Char) (t : Nat) {l₁ l₂ : List Char}
    (h : l₁ <+: l₂) (hl : noRunB ch t l₂ = true) : noRunB ch t l₁ = true := by
  obtain ⟨r, rfl⟩ := h
  exact noRunGo_append_right ch t l₁ r 0 hl

/-- Run-freeness restricts to suffixes. -/
theorem noRunB_suffixClosed (ch : Char) (t : Nat) {l₁ l₂ : List Char}
    (h : l₁ <:+ l₂) (hl : noRunB ch t l₂ = true) : noRunB ch t l₁ = true := by
  obtain ⟨x, rfl⟩ := h
  exact noRunGo_append_left ch t x l₁ hl

/-- Stripping preserves run-freeness. -/
theorem pyStripList_noRun (ch : Char) (t : Nat) (l : List Char)
    (h : noRunB ch t l = true) : noRunB ch t (pyStripList l) = true :=
  noRunB_prefixClosed ch t (dropTrailingSpaces_prefixOf _)
    (noRunB_suffixClosed ch t (List.dropWhile_suffix _) h)

/-- Stripping only removes characters. -/
theorem pyStripList_subset (l : List Char) : pyStripList l ⊆ l := by
  intro c hc
  exact (List.dropWhile_suffix pyIsSpace).subset
    ((dropTrailingSpaces_prefixOf (l.dropWhile pyIsSpace)).subset hc)

/-- `dropWhile` is idempotent. -/
theorem dropWhile_idem (p : Char → Bool) (l : List Char) :
    (l.dropWhile p).dropWhile p = l.dropWhile p := by
  cases hd : l.dropWhile p with
  | nil => rfl
  | cons c cs =>
    rw [List.dropWhile_cons, dropWhile_head_false p l c cs hd]
    simp

/-- Python `strip` is idempotent. -/
theorem pyStripList_idem (l : List Char) :
    pyStripList (pyStripList l) = pyStripList l := by
  have hz : (pyStripList l).reverse =
      (l.dropWhile pyIsSpace).reverse.dropWhile pyIsSpace := by
    rw [pyStripList, dropTrailingSpaces, List.reverse_reverse]
  have hstep1 : (pyStripList l).dropWhile pyIsSpace = pyStripList l := by
    cases hd : pyStripList l with
    | nil => rfl
    | cons c cs =>
      have hpre : pyStripList l <+: l.dropWhile pyIsSpace :=
        dropTrailingSpaces_prefixOf _
      obtain ⟨r, hr⟩ := hpre
      rw [hd] at hr
      have hc := dropWhile_head_false pyIsSpace l c (cs ++ r)
        (by rw [← hr, List.cons_append])
      rw [List.dropWhile_cons, hc]
      simp
  have hstep2 : dropTrailingSpaces (pyStripList l) = pyStripList l := by
    rw [dropTrailingSpaces, hz, dropWhile_idem, ← hz, List.reverse_reverse]
  calc pyStripList (pyStripList l)
      = dropTrailingSpaces ((pyStripList l).dropWhile pyIsSpace) := rfl
    _ = dropTrailingSpaces (pyStripList l) := by rw [hstep1]
    _ = pyStripList l := hstep2

/-- Unpacking `isMarkerChar c = false`. -/
theorem markerFree_elim {c : Char} (h : isMarkerChar c = false) :
    isBulletChar c = false ∧ ¬ c = '_' ∧ ¬ c = backtickChar ∧
      c.isDigit = false := by
  rw [isMarkerChar] at h
  simp only [Bool.or_eq_false_iff, decide_eq_false_iff_not] at h
  exact ⟨h.1.1.1, h.1.1.2, h.1.2, h.2⟩

/-- A non-bullet character is not an asterisk. -/
theorem bullet_free_star {c : Char} (h : isBulletChar c = false) :
    ¬ c = '*' := by
  intro heq
  rw [heq] at h
  simp [isBulletChar] at h

/-- C4 amended: the Text Sanitizer is idempotent on every input containing
    none of the marker characters (hyphen, bullet, asterisk, underscore,
    backquote, digits): for such inputs the eight marker-removal passes are
    the identity and the whitespace normalization (newline collapse, space
    collapse, strip) reaches a fixed point after one application.  On
    general inputs a second application can strip additional list markers
    exposed by the first pass (see the counterexample), so full idempotence
    fails. -/
theorem clean_text_idempotent_on_marker_free (s : String)
    (h : markerFree s = true) :
    clean_text (clean_text s) = clean_text s := by
  have hall : ∀ c ∈ s.toList, isMarkerChar c = false := by
    intro c hc
    have := List.all_eq_true.mp h c hc
    simpa using this
  -- the eight marker passes are the identity on the input
  have hid : ∀ (L : List Char), (∀ c ∈ L, isMarkerChar c = false) →
      lineMarkerGo bulletMatch (L.length + 1) true L = L ∧
      lineMarkerGo numMatch (L.length + 1) true L = L ∧
      (∀ fuel, subDelimGo ['*', '*'] ['*', '*'] true true true fuel L = L) ∧
      (∀ fuel, subDelimGo ['*'] ['*'] true true true fuel L = L) ∧
      (∀ fuel, subDelimGo ['_', '_'] ['_', '_'] true true true fuel L = L) ∧
      (∀ fuel, subDelimGo ['_'] ['_'] true true true fuel L = L) ∧
      (∀ fuel, subDelimGo [backtickChar, backtickChar, backtickChar]
        [backtickChar, backtickChar, backtickChar] false false false fuel L = L) ∧
      (∀ fuel, subDelimGo [backtickChar] [backtickChar] true true true fuel L = L) := by
    intro L hL
    refine ⟨?_, ?_, ?_, ?_, ?_, ?_, ?_, ?_⟩
    · exact lineMarkerGo_eq_self _ _ _ _ (fun l' hl' => bulletMatch_none l'
        (fun c hc => (markerFree_elim (hL c (hl'.subset hc))).1))
    · exact lineMarkerGo_eq_self _ _ _ _ (fun l' hl' => numMatch_none l'
        (fun c hc => (markerFree_elim (hL c (hl'.subset hc))).2.2.2))
    · exact fun fuel => subDelimGo_id '*' _ _ _ _ _ fuel L
        (fun c hc => bullet_free_star (markerFree_elim (hL c hc)).1)
    · exact fun fuel => subDelimGo_id '*' _ _ _ _ _ fuel L
        (fun c hc => bullet_free_star (markerFree_elim (hL c hc)).1)
    · exact fun fuel => subDelimGo_id '_' _ _ _ _ _ fuel L
        (fun c hc => (markerFree_elim (hL c hc)).2.1)
    · exact fun fuel => subDelimGo_id '_' _ _ _ _ _ fuel L
        (fun c hc => (markerFree_elim (hL c hc)).2.1)
    · exact fun fuel => subDelimGo_id backtickChar _ _ _ _ _ fuel L
        (fun c hc => (markerFree_elim (hL c hc)).2.2.1)
    · exact fun fuel => subDelimGo_id backtickChar _ _ _ _ _ fuel L
        (fun c hc => (markerFree_elim (hL c hc)).2.2.1)
  obtain ⟨h1, h2, h3, h4, h5, h6, h7, h8⟩ := hid s.toList hall
  -- clean_text s reduces to the three whitespace stages
  have hcs : clean_text s = String.mk (pyStripList
      (collapseRunsGo ' ' 2 1
        ((collapseRunsGo '\n' 3 2 (s.toList.length + 1) s.toList).length + 1)
        (collapseRunsGo '\n' 3 2 (s.toList.length + 1) s.toList))) := by
    simp only [clean_text, h1, h2, h3, h4, h5, h6, h7, h8]
  have f1 : noRunB '\n' 3
      (collapseRunsGo '\n' 3 2 (s.toList.length + 1) s.toList) = true :=
    collapseRunsGo_noRun '\n' 3 2 (by omega) (by omega) _ _ (by omega)
  have f2 : noRunB ' ' 2 (collapseRunsGo ' ' 2 1
      ((collapseRunsGo '\n' 3 2 (s.toList.length + 1) s.toList).length + 1)
      (collapseRunsGo '\n' 3 2 (s.toList.length + 1) s.toList)) = true :=
    collapseRunsGo_noRun ' ' 2 1 (by omega) (by omega) _ _ (by omega)
  have f3 : noRunB '\n' 3 (collapseRunsGo ' ' 2 1
      ((collapseRunsGo '\n' 3 2 (s.toList.length + 1) s.toList).length + 1)
      (collapseRunsGo '\n' 3 2 (s.toList.length + 1) s.toList)) = true :=
    collapseRuns_preserves_noRun '\n' ' ' (by decide) 3 2 1 (by omega) _ _ 0 f1
  have f4 : noRunB '\n' 3 ((clean_text s).toList) = true := by
    rw [hcs]
    exact pyStripList_noRun _ _ _ f3
  have f5 : noRunB ' ' 2 ((clean_text s).toList) = true := by
    rw [hcs]
    exact pyStripList_noRun _ _ _ f2
  have f6 : ∀ c ∈ (clean_text s).toList, isMarkerChar c = false := by
    rw [hcs]
    intro c hc
    have hc1 := pyStripList_subset _ hc
    rcases collapseRunsGo_chars ' ' 2 1 _ _ c hc1 with hc2 | rfl
    · rcases collapseRunsGo_chars '\n' 3 2 _ _ c hc2 with hc3 | rfl
      · exact hall c hc3
      · decide
    · decide
  have hTstrip : pyStripList ((clean_text s).toList) = (clean_text s).toList := by
    rw [hcs]
    exact pyStripList_idem _
  have hpass : ∀ (u : String),
      (∀ c ∈ u.toList, isMarkerChar c = false) →
      noRunB '\n' 3 u.toList = true →
      noRunB ' ' 2 u.toList = true →
      pyStripList u.toList = u.toList →
      clean_text u = String.mk u.toList := by
    intro u hu p4 p5 hstrip
    obtain ⟨g1, g2, g3, g4, g5, g6, g7, g8⟩ := hid u.toList hu
    have cid1 : ∀ fuel, collapseRunsGo '\n' 3 2 fuel u.toList = u.toList :=
      fun fuel => collapseRunsGo_id '\n' 3 2 fuel u.toList p4
    have cid2 : ∀ fuel, collapseRunsGo ' ' 2 1 fuel u.toList = u.toList :=
      fun fuel => collapseRunsGo_id ' ' 2 1 fuel u.toList p5
    simp only [clean_text, g1, g2, g3, g4, g5, g6, g7, g8, cid1, cid2, hstrip]
  exact (hpass (clean_text s) f6 f4 f5 hTstrip).trans rfl

/-- Witness for the amended C4: a concrete marker-free text with extra
    whitespace is a fixed point after one sanitization. -/
theorem clean_text_idempotent_on_marker_free_witness :
    markerFree "Bonjour  le\n\n\n\nmonde " = true ∧
    clean_text (clean_text "Bonjour  le\n\n\n\nmonde ") =
      clean_text "Bonjour  le\n\n\n\nmonde " :=
  ⟨by decide, clean_text_idempotent_on_marker_free _ (by decide)⟩


/-- Reference behaviour of the sanitizer embedding on the specification's
    literal test vector and a sample of related inputs (each checked against
    CPython's `re.sub` semantics). -/
theorem clean_text_reference_vectors :
    clean_text "- Item one\n* Item two\n1. Item three\n**bold** and _em_" =
      "Item one\nItem two\nItem three\nbold and em" ∧
    clean_text "***x***" = "x" ∧
    clean_text "x\n\n```a\nb```\n\ny" = "x\n\ny" ∧
    clean_text "a  b   c" = "a b c" ∧
    clean_text "a\n\n\n\n\nb" = "a\n\nb" ∧
    clean_text " 5.  indented" = "indented" ∧
    clean_text "a_b_c_" = "abc_" := by
  refine ⟨by decide, by decide, by decide, by decide, by decide, by decide,
    by decide⟩
